import Mathlib

/-!
Verification development for the WealthXity portfolio manager.

The Python source is shallowly embedded:
* scalar cell values become the inductive `Value` (null / rational number /
  string); floating point is modelled by `ℚ` (exactness of `float` is not at
  issue in any claim, only which coercions fail and which arithmetic is done);
* a pandas record (`dict`) becomes an association list `Record`, a DataFrame
  becomes an ordered list of records;
* `float(x)` becomes `pyFloat?`, returning `none` where Python raises
  `ValueError`/`TypeError`; the string parser accepts plain (optionally
  signed) decimal literals, which is the fragment relevant to the claims;
* each storage backend's mutable state becomes an explicit state value and
  its methods become state-passing functions, following the method bodies of
  `storage.py` line by line;
* `round(x, 2)` becomes `pyRound2` (round half to even at two decimals).
-/

set_option synthInstance.maxSize 2000

/-- A scalar cell value: Python `None`, a number, or a string. -/
inductive Value where
  | null : Value
  | num : ℚ → Value
  | str : String → Value
deriving DecidableEq, Repr

/-- A record (Python dict row): ordered association list field → value. -/
abbrev Record := List (String × Value)

/-- A tabular dataset (pandas DataFrame) at record granularity. -/
abbrev DataFrame := List Record

/-! ### Association-list operations mirroring Python dict semantics -/

/-- `d.get(k)` lookup returning the first binding. -/
def assocGet? {α : Type} : List (String × α) → String → Option α
  | [], _ => none
  | p :: l, k => if p.1 = k then some p.2 else assocGet? l k

/-- `d[k] = v` dict assignment: replace the first binding in place, else
append at the end (Python dicts preserve insertion order). -/
def assocSet {α : Type} : List (String × α) → String → α → List (String × α)
  | [], k, v => [(k, v)]
  | p :: l, k, v => if p.1 = k then (k, v) :: l else p :: assocSet l k v

/-- Remove every binding of `k` (`del d[k]` on duplicate-free dicts,
column drop on records). -/
def assocErase {α : Type} : List (String × α) → String → List (String × α)
  | [], _ => []
  | p :: l, k => if p.1 = k then assocErase l k else p :: assocErase l k

theorem assocGet?_set_self {α : Type} (l : List (String × α)) (k : String)
    (v : α) : assocGet? (assocSet l k v) k = some v := by
  induction l with
  | nil => simp [assocGet?, assocSet]
  | cons p l ih =>
    by_cases h : p.1 = k
    · simp [assocGet?, assocSet, h]
    · simp [assocGet?, assocSet, h, ih]

theorem assocGet?_set_ne {α : Type} (l : List (String × α)) (k k' : String)
    (v : α) (h : k ≠ k') :
    assocGet? (assocSet l k v) k' = assocGet? l k' := by
  induction l with
  | nil => simp [assocGet?, assocSet, h]
  | cons p l ih =>
    by_cases hp : p.1 = k
    · simp [assocGet?, assocSet, hp, h, Ne.symm h]
    · by_cases hp' : p.1 = k'
      · simp [assocGet?, assocSet, hp, hp', Ne.symm h]
      · simp [assocGet?, assocSet, hp, hp', ih]

theorem assocErase_set_self {α : Type} (l : List (String × α)) (k : String)
    (v : α) : assocErase (assocSet l k v) k = assocErase l k := by
  induction l with
  | nil => simp [assocErase, assocSet]
  | cons p l ih =>
    by_cases hp : p.1 = k
    · simp [assocErase, assocSet, hp]
    · simp [assocErase, assocSet, hp, ih]

theorem assocGet?_erase_ne {α : Type} (l : List (String × α)) (k k' : String)
    (h : k ≠ k') : assocGet? (assocErase l k) k' = assocGet? l k' := by
  induction l with
  | nil => simp [assocErase]
  | cons p l ih =>
    by_cases hp : p.1 = k
    · simp [assocErase, assocGet?, hp, h, Ne.symm h, ih]
    · by_cases hp' : p.1 = k'
      · simp [assocErase, assocGet?, hp, hp', Ne.symm h]
      · simp [assocErase, assocGet?, hp, hp', ih]

theorem assocGet?_erase_self {α : Type} (l : List (String × α)) (k : String) :
    assocGet? (assocErase l k) k = none := by
  induction l with
  | nil => simp [assocErase, assocGet?]
  | cons p l ih =>
    by_cases hp : p.1 = k
    · simp [assocErase, hp, ih]
    · simp [assocErase, assocGet?, hp, ih]

/-! ### Python truthiness and numeric coercion -/

/-- Python truthiness of a cell value: `None`, `0` and `""` are falsy. -/
def pyFalsy : Value → Bool
  | Value.null => true
  | Value.num q => q = 0
  | Value.str s => s = ""

/-- Python `x or 0`: replace a falsy value by the number `0`. -/
def pyOr0 (v : Value) : Value :=
  if pyFalsy v then Value.num 0 else v

/-- Value of a list of decimal digit characters, with its length;
`none` if any character is not a digit.  The empty list parses to `(0, 0)`. -/
def decDigits? (cs : List Char) : Option (Nat × Nat) :=
  if cs.all (fun c => c.isDigit) then
    some (cs.foldl (fun a c => 10 * a + (c.toNat - 48)) 0, cs.length)
  else none

/-- Strip leading and trailing whitespace from a character list. -/
def trimChars (cs : List Char) : List Char :=
  ((cs.dropWhile (fun c => c.isWhitespace)).reverse.dropWhile
    (fun c => c.isWhitespace)).reverse

/-- Python `float(s)` on a string, for plain decimal literals: optional
sign, integer part, optional fractional part (at least one digit overall).
Exponents, `inf`/`nan` and underscores are not modelled; no claim depends
on them. `none` models a raised `ValueError`. -/
def parseRat? (s : String) : Option ℚ :=
  let cs := trimChars s.toList
  let signed : ℚ × List Char :=
    match cs with
    | '-' :: t => (-1, t)
    | '+' :: t => (1, t)
    | t => (1, t)
  match (signed.2.span (fun c => c ≠ '.')) with
  | (ip, []) =>
      (decDigits? ip).bind fun p =>
        if p.2 = 0 then none else some (signed.1 * p.1)
  | (ip, _ :: fp) =>
      (decDigits? ip).bind fun p =>
        (decDigits? fp).bind fun q =>
          if p.2 = 0 ∧ q.2 = 0 then none
          else some (signed.1 * ((p.1 : ℚ) + (q.1 : ℚ) / 10 ^ q.2))

/-- Python `float(v)`: numbers pass through, strings are parsed,
`None` raises `TypeError` (hence `none`). -/
def pyFloat? : Value → Option ℚ
  | Value.null => none
  | Value.num q => some q
  | Value.str s => parseRat? s

/-- `float(row.get(field, 0) or 0)` — the coercion used throughout
`calculate_portfolio_summary_from_data`. -/
def getF (r : Record) (k : String) : Option ℚ :=
  pyFloat? (pyOr0 ((assocGet? r k).getD (Value.num 0)))

/-! ### Aggregation engine (`calculate_portfolio_summary_from_data`,
`routes.py` lines 39-140) -/

/-- The summary dict built by `calculate_portfolio_summary_from_data`. -/
structure Summary where
  mutual_funds : ℚ := 0
  stocks : ℚ := 0
  real_estate : ℚ := 0
  gold : ℚ := 0
  silver : ℚ := 0
  bank_balance : ℚ := 0
  fixed_deposits : ℚ := 0
  nps : ℚ := 0
  ppf : ℚ := 0
  epf : ℚ := 0
  insurance_cover : ℚ := 0
  credit_card_outstanding : ℚ := 0
  loans_outstanding : ℚ := 0
  total_assets : ℚ := 0
  total_liabilities : ℚ := 0
  net_worth : ℚ := 0
deriving DecidableEq, Repr

/-- The all-zero summary the function starts from. -/
def zeroSummary : Summary := {}

/-- Contribution of one `Mutual Funds` row: `units * current_nav`; the
`try` block adds nothing if either coercion raises. -/
def rowDeltaMF (r : Record) : ℚ :=
  match getF r "units", getF r "current_nav" with
  | some a, some b => a * b
  | _, _ => 0

/-- Contribution of one `Stocks` row: `quantity * current_price`. -/
def rowDeltaStocks (r : Record) : ℚ :=
  match getF r "quantity", getF r "current_price" with
  | some a, some b => a * b
  | _, _ => 0

/-- Contribution of one `Real Estate` row:
`current_value - loan_outstanding`; nothing is added if either raises. -/
def rowDeltaRealEstate (r : Record) : ℚ :=
  match getF r "current_value", getF r "loan_outstanding" with
  | some a, some b => a - b
  | _, _ => 0

/-- Contribution of one `Gold` or `Silver` row:
`weight_grams * current_price_per_gram`. -/
def rowDeltaMetal (r : Record) : ℚ :=
  match getF r "weight_grams", getF r "current_price_per_gram" with
  | some a, some b => a * b
  | _, _ => 0

/-- Contribution of a single-field row (`balance`, `principal_amount`,
`current_balance`, `total_balance`, `sum_assured`, `outstanding_balance`,
`outstanding_amount`): zero if the coercion raises. -/
def rowDelta1 (field : String) (r : Record) : ℚ :=
  (getF r field).getD 0

/-- Contribution of one `NPS Accounts` row.  The source adds
`tier1_balance` and `tier2_balance` in two separate statements inside one
`try`: if `tier1_balance` raises nothing is added, and if only
`tier2_balance` raises the already-executed `tier1_balance` addition
remains. -/
def rowDeltaNPS (r : Record) : ℚ :=
  match getF r "tier1_balance" with
  | none => 0
  | some a => a + (getF r "tier2_balance").getD 0

/-- One iteration of the `for sheet, items in all_data.items()` loop. -/
def applySheet (s : Summary) (sheet : String) (items : List Record) :
    Summary :=
  if sheet = "Summary" ∨ sheet = "Net Worth History" ∨ items = [] then s
  else if sheet = "Mutual Funds" then
    { s with mutual_funds := s.mutual_funds + (items.map rowDeltaMF).sum }
  else if sheet = "Stocks" then
    { s with stocks := s.stocks + (items.map rowDeltaStocks).sum }
  else if sheet = "Real Estate" then
    { s with real_estate := s.real_estate + (items.map rowDeltaRealEstate).sum }
  else if sheet = "Gold" then
    { s with gold := s.gold + (items.map rowDeltaMetal).sum }
  else if sheet = "Silver" then
    { s with silver := s.silver + (items.map rowDeltaMetal).sum }
  else if sheet = "Bank Accounts" then
    { s with bank_balance := s.bank_balance + (items.map (rowDelta1 "balance")).sum }
  else if sheet = "Fixed Deposits" then
    { s with fixed_deposits := s.fixed_deposits + (items.map (rowDelta1 "principal_amount")).sum }
  else if sheet = "NPS Accounts" then
    { s with nps := s.nps + (items.map rowDeltaNPS).sum }
  else if sheet = "PPF" then
    { s with ppf := s.ppf + (items.map (rowDelta1 "current_balance")).sum }
  else if sheet = "EPF" then
    { s with epf := s.epf + (items.map (rowDelta1 "total_balance")).sum }
  else if sheet = "Insurance Policies" then
    { s with insurance_cover := s.insurance_cover + (items.map (rowDelta1 "sum_assured")).sum }
  else if sheet = "Credit Cards" then
    { s with credit_card_outstanding := s.credit_card_outstanding + (items.map (rowDelta1 "outstanding_balance")).sum }
  else if sheet = "Loans" then
    { s with loans_outstanding := s.loans_outstanding + (items.map (rowDelta1 "outstanding_amount")).sum }
  else s

/-- `calculate_portfolio_summary_from_data`: fold the per-sheet loop over
the input mapping, then set the three derived totals. -/
def calculate_portfolio_summary_from_data
    (all_data : List (String × List Record)) : Summary :=
  let s := all_data.foldl (fun s p => applySheet s p.1 p.2) zeroSummary
  let ta := s.mutual_funds + s.stocks + s.real_estate + s.gold + s.silver +
    s.bank_balance + s.fixed_deposits + s.nps + s.ppf + s.epf
  let tl := s.loans_outstanding + s.credit_card_outstanding
  { s with total_assets := ta, total_liabilities := tl, net_worth := ta - tl }

/-! ### Lemmas about the aggregation engine -/

theorem assocGet?_eq_some_mem {α : Type} {l : List (String × α)} {k : String}
    {v : α} (h : assocGet? l k = some v) : (k, v) ∈ l := by
  induction l with
  | nil => simp [assocGet?] at h
  | cons p l ih =>
    by_cases hp : p.1 = k
    · subst hp
      simp [assocGet?] at h
      simp [← h]
    · simp only [assocGet?, hp, if_neg, ite_false] at h
      exact List.mem_cons_of_mem p (ih h)

/-- A record all of whose stored values fail numeric coercion (even after
the `or 0` defaulting). -/
abbrev allCoercionsFail (r : Record) : Prop :=
  ∀ p ∈ r, pyFloat? (pyOr0 p.2) = none

theorem getF_of_allCoercionsFail {r : Record} (h : allCoercionsFail r)
    (k : String) : getF r k = none ∨ getF r k = some 0 := by
  unfold getF
  cases hg : assocGet? r k with
  | none => right; simp [Option.getD, pyOr0, pyFalsy, pyFloat?]
  | some v =>
    left
    simpa using h (k, v) (assocGet?_eq_some_mem hg)

theorem applySheet_allBad (s : Summary) (sheet : String) (r : Record)
    (h : allCoercionsFail r) : applySheet s sheet [r] = s := by
  have hMF : rowDeltaMF r = 0 := by
    rcases getF_of_allCoercionsFail h "units" with h1 | h1 <;>
      rcases getF_of_allCoercionsFail h "current_nav" with h2 | h2 <;>
      simp [rowDeltaMF, h1, h2]
  have hSt : rowDeltaStocks r = 0 := by
    rcases getF_of_allCoercionsFail h "quantity" with h1 | h1 <;>
      rcases getF_of_allCoercionsFail h "current_price" with h2 | h2 <;>
      simp [rowDeltaStocks, h1, h2]
  have hRE : rowDeltaRealEstate r = 0 := by
    rcases getF_of_allCoercionsFail h "current_value" with h1 | h1 <;>
      rcases getF_of_allCoercionsFail h "loan_outstanding" with h2 | h2 <;>
      simp [rowDeltaRealEstate, h1, h2]
  have hMe : rowDeltaMetal r = 0 := by
    rcases getF_of_allCoercionsFail h "weight_grams" with h1 | h1 <;>
      rcases getF_of_allCoercionsFail h "current_price_per_gram" with h2 | h2 <;>
      simp [rowDeltaMetal, h1, h2]
  have hNPS : rowDeltaNPS r = 0 := by
    rcases getF_of_allCoercionsFail h "tier1_balance" with h1 | h1 <;>
      rcases getF_of_allCoercionsFail h "tier2_balance" with h2 | h2 <;>
      simp [rowDeltaNPS, h1, h2]
  have h1 : ∀ f, rowDelta1 f r = 0 := by
    intro f
    rcases getF_of_allCoercionsFail h f with h1 | h1 <;> simp [rowDelta1, h1]
  unfold applySheet
  by_cases c0 : sheet = "Summary" ∨ sheet = "Net Worth History" ∨ [r] = ([] : List Record)
  · rw [if_pos c0]
  rw [if_neg c0]
  by_cases c1 : sheet = "Mutual Funds"
  · rw [if_pos c1]
    simp [hMF]
  rw [if_neg c1]
  by_cases c2 : sheet = "Stocks"
  · rw [if_pos c2]
    simp [hSt]
  rw [if_neg c2]
  by_cases c3 : sheet = "Real Estate"
  · rw [if_pos c3]
    simp [hRE]
  rw [if_neg c3]
  by_cases c4 : sheet = "Gold"
  · rw [if_pos c4]
    simp [hMe]
  rw [if_neg c4]
  by_cases c5 : sheet = "Silver"
  · rw [if_pos c5]
    simp [hMe]
  rw [if_neg c5]
  by_cases c6 : sheet = "Bank Accounts"
  · rw [if_pos c6]
    simp [h1]
  rw [if_neg c6]
  by_cases c7 : sheet = "Fixed Deposits"
  · rw [if_pos c7]
    simp [h1]
  rw [if_neg c7]
  by_cases c8 : sheet = "NPS Accounts"
  · rw [if_pos c8]
    simp [hNPS]
  rw [if_neg c8]
  by_cases c9 : sheet = "PPF"
  · rw [if_pos c9]
    simp [h1]
  rw [if_neg c9]
  by_cases c10 : sheet = "EPF"
  · rw [if_pos c10]
    simp [h1]
  rw [if_neg c10]
  by_cases c11 : sheet = "Insurance Policies"
  · rw [if_pos c11]
    simp [h1]
  rw [if_neg c11]
  by_cases c12 : sheet = "Credit Cards"
  · rw [if_pos c12]
    simp [h1]
  rw [if_neg c12]
  by_cases c13 : sheet = "Loans"
  · rw [if_pos c13]
    simp [h1]
  rw [if_neg c13]

/-- **C4.** In every summary produced by the aggregation engine,
`total_assets` is the sum of the mutual-funds, stocks, real-estate, gold,
silver, bank-balance, fixed-deposits, NPS, PPF and EPF category totals
(insurance cover excluded), `total_liabilities` is loans outstanding plus
credit-card outstanding, and `net_worth` is assets minus liabilities. -/
theorem summary_totals_correct (all_data : List (String × List Record)) :
    (calculate_portfolio_summary_from_data all_data).total_assets =
      (calculate_portfolio_summary_from_data all_data).mutual_funds +
      (calculate_portfolio_summary_from_data all_data).stocks +
      (calculate_portfolio_summary_from_data all_data).real_estate +
      (calculate_portfolio_summary_from_data all_data).gold +
      (calculate_portfolio_summary_from_data all_data).silver +
      (calculate_portfolio_summary_from_data all_data).bank_balance +
      (calculate_portfolio_summary_from_data all_data).fixed_deposits +
      (calculate_portfolio_summary_from_data all_data).nps +
      (calculate_portfolio_summary_from_data all_data).ppf +
      (calculate_portfolio_summary_from_data all_data).epf ∧
    (calculate_portfolio_summary_from_data all_data).total_liabilities =
      (calculate_portfolio_summary_from_data all_data).loans_outstanding +
      (calculate_portfolio_summary_from_data all_data).credit_card_outstanding ∧
    (calculate_portfolio_summary_from_data all_data).net_worth =
      (calculate_portfolio_summary_from_data all_data).total_assets -
      (calculate_portfolio_summary_from_data all_data).total_liabilities :=
  ⟨rfl, rfl, rfl⟩

/-- **C5.** The aggregation engine never fails: it is a total function;
on the empty mapping it yields the all-zero summary with `net_worth = 0`;
it is deterministic; and a record every one of whose field values fails
numeric coercion contributes nothing — both to its own sheet's pass and to
the whole summary, which is computed as if that record's sheet entry were
absent. -/
theorem summary_fault_tolerant :
    (calculate_portfolio_summary_from_data [] = zeroSummary ∧
      (calculate_portfolio_summary_from_data []).net_worth = 0) ∧
    (∀ d : List (String × List Record),
      calculate_portfolio_summary_from_data d =
        calculate_portfolio_summary_from_data d) ∧
    (∀ (s : Summary) (sheet : String) (r : Record), allCoercionsFail r →
      applySheet s sheet [r] = s) ∧
    (∀ (pre post : List (String × List Record)) (sheet : String)
      (r : Record), allCoercionsFail r →
      calculate_portfolio_summary_from_data (pre ++ (sheet, [r]) :: post) =
        calculate_portfolio_summary_from_data (pre ++ post)) := by
  have hempty : calculate_portfolio_summary_from_data [] = zeroSummary := by
    simp [calculate_portfolio_summary_from_data, zeroSummary]
  refine ⟨⟨hempty, by rw [hempty]; rfl⟩, fun d => rfl, applySheet_allBad, ?_⟩
  intro pre post sheet r h
  unfold calculate_portfolio_summary_from_data
  simp only [List.foldl_append, List.foldl_cons]
  rw [applySheet_allBad _ sheet r h]

/-- Witness for C5: a `Stocks` record whose only field is the non-numeric
string `"abc"` leaves the summary untouched. -/
theorem summary_fault_tolerant_witness :
    applySheet zeroSummary "Stocks" [[("quantity", Value.str "abc")]] =
      zeroSummary :=
  summary_fault_tolerant.2.2.1 zeroSummary "Stocks"
    [("quantity", Value.str "abc")] (by decide)

/-! ### Storage backends (`storage.py`) -/

/-- `pd.isna(v)`: true exactly for missing values (`None`; float NaN has no
counterpart in this model). -/
def isNA : Value → Bool
  | Value.null => true
  | _ => false

/-- NaN-to-null normalisation applied on export and on remote save:
`v if pd.notna(v) else None` per field. -/
def normRecord (r : Record) : Record :=
  r.map (fun kv => (kv.1, if isNA kv.2 then Value.null else kv.2))

theorem normRecord_id (r : Record) : normRecord r = r := by
  unfold normRecord
  induction r with
  | nil => rfl
  | cons kv r ih =>
    simp only [List.map_cons, ih]
    cases kv with
    | mk k v => cases v <;> simp [isNA]

namespace ExcelStorage

/-- The spreadsheet file: ordered sheets, each holding a dataset. -/
abbrev File := List (String × DataFrame)

/-- `get_data` (`storage.py` 75-80): read a sheet, empty if absent. -/
def get_data (file : File) (name : String) : DataFrame :=
  (assocGet? file name).getD []

/-- `save_data` (82-95): read every *other* sheet back, add this one, and
rewrite the whole file (the fresh dict lists the kept sheets in file
order, then the saved sheet last). -/
def save_data (file : File) (name : String) (df : DataFrame) : File :=
  (file.filter (fun p => p.1 ≠ name)) ++ [(name, df)]

/-- `delete_collection` (97-109): read every other sheet and rewrite the
file with just those — but only `if all_data:`; when no other sheet
exists the file is left untouched (a workbook cannot be sheetless). -/
def delete_collection (file : File) (name : String) : File :=
  let rest := file.filter (fun p => p.1 ≠ name)
  if rest = [] then file else rest

/-- `get_collection_names` (70-73). -/
def get_collection_names (file : File) : List String :=
  file.map (fun p => p.1)

end ExcelStorage

namespace InMemoryStorage

/-- The class-level mutable state of `InMemoryStorage`:
`_all_browser_data` (scope id → store) and `_current_browser_id`. -/
structure GlobalState where
  all_browser_data : List (String × List (String × DataFrame))
  current_browser_id : Option String
deriving Repr

instance : DecidableEq GlobalState := fun a b =>
  decidable_of_iff
    (a.all_browser_data = b.all_browser_data ∧
      a.current_browser_id = b.current_browser_id)
    (by cases a; cases b; simp)

/-- `set_browser_id` (128-131). -/
def set_browser_id (st : GlobalState) (bid : String) : GlobalState :=
  { st with current_browser_id := some bid }

/-- `bid = _current_browser_id or 'default'`. -/
def effectiveBid (st : GlobalState) : String :=
  st.current_browser_id.getD "default"

/-- `_get_data_store` (121-126): fetch the current scope's store, first
installing a fresh `{'Summary': empty}` store if the scope is new. -/
def get_data_store (st : GlobalState) :
    GlobalState × List (String × DataFrame) :=
  match assocGet? st.all_browser_data (effectiveBid st) with
  | some store => (st, store)
  | none =>
      ({ st with all_browser_data :=
          assocSet st.all_browser_data (effectiveBid st) [("Summary", [])] },
        [("Summary", [])])

/-- `get_collection_names` (138-140). -/
def get_collection_names (st : GlobalState) : GlobalState × List String :=
  let p := get_data_store st
  (p.1, p.2.map (fun q => q.1))

/-- `get_data` (142-144); `.copy()` is the identity in a pure model. -/
def get_data (st : GlobalState) (name : String) : GlobalState × DataFrame :=
  let p := get_data_store st
  (p.1, (assocGet? p.2 name).getD [])

/-- `save_data` (146-148). -/
def save_data (st : GlobalState) (name : String) (df : DataFrame) :
    GlobalState :=
  let p := get_data_store st
  { p.1 with all_browser_data :=
      assocSet p.1.all_browser_data (effectiveBid p.1) (assocSet p.2 name df) }

/-- `delete_collection` (150-154): remove the key only if present. -/
def delete_collection (st : GlobalState) (name : String) : GlobalState :=
  let p := get_data_store st
  if (assocGet? p.2 name).isSome then
    { p.1 with all_browser_data :=
        assocSet p.1.all_browser_data (effectiveBid p.1) (assocErase p.2 name) }
  else p.1

/-- `load_all_data` (156-167): rebuild the scope's store from the pushed
client data, then add an empty `Summary` collection if absent. -/
def load_all_data (st : GlobalState) (data : List (String × List Record)) :
    GlobalState :=
  let bid := effectiveBid st
  let store := data.foldl
    (fun acc p => assocSet acc p.1 (if p.2 = [] then ([] : DataFrame) else p.2))
    ([] : List (String × DataFrame))
  let store2 := if (assocGet? store "Summary").isSome then store
    else store ++ [("Summary", ([] : DataFrame))]
  { st with all_browser_data := assocSet st.all_browser_data bid store2 }

/-- `export_all_data` (169-182): per collection, the records with NaN
normalised to null, or `[]` for an empty frame. -/
def export_all_data (st : GlobalState) :
    GlobalState × List (String × List Record) :=
  let p := get_data_store st
  (p.1, p.2.map (fun q => (q.1, if q.2 = [] then [] else q.2.map normRecord)))

end InMemoryStorage

namespace FirebaseStorage

/-- The per-user slice of the Firestore database: collection name →
documents, each a (document id, record) pair.  Document streaming is
modelled as returning documents in insertion order. -/
structure Store where
  collections : List (String × List (String × Record))
deriving Repr

instance : DecidableEq Store := fun a b =>
  decidable_of_iff (a.collections = b.collections) (by cases a; cases b; simp)

/-- `save_data` (248-263): delete every existing document of the
collection, then insert the rows as fresh documents `doc_0, doc_1, …`
with NaN values normalised to null. -/
def save_data (st : Store) (name : String) (df : DataFrame) : Store :=
  let docs := df.enum.map
    (fun p => ("doc_" ++ toString p.1, normRecord p.2))
  { st with collections := assocSet st.collections name docs }

/-- `get_data` (229-246): stream the documents, tag each record with its
`_doc_id`, build a frame if any, and drop the `_doc_id` column. -/
def get_data (st : Store) (name : String) : DataFrame :=
  let docs := (assocGet? st.collections name).getD []
  let records := docs.map (fun p => assocSet p.2 "_doc_id" (Value.str p.1))
  if records = [] then []
  else records.map (fun r => assocErase r "_doc_id")

/-- `delete_collection` (265-272): delete every document of the
collection (an empty Firestore collection simply has no documents). -/
def delete_collection (st : Store) (name : String) : Store :=
  let cols := st.collections.map
    (fun p => if p.1 = name then (p.1, ([] : List (String × Record))) else p)
  { st with collections := cols }

end FirebaseStorage

/-! ### Backend lemmas -/

theorem assocGet?_append {α : Type} (l1 l2 : List (String × α)) (k : String) :
    assocGet? (l1 ++ l2) k =
      match assocGet? l1 k with
      | some v => some v
      | none => assocGet? l2 k := by
  induction l1 with
  | nil => simp [assocGet?]
  | cons p l ih =>
    by_cases hp : p.1 = k
    · simp [assocGet?, hp]
    · simp [assocGet?, hp, ih]

theorem assocGet?_filter_ne_self {α : Type} (l : List (String × α))
    (k : String) :
    assocGet? (l.filter (fun p => p.1 ≠ k)) k = none := by
  induction l with
  | nil => rfl
  | cons p l ih =>
    by_cases hp : p.1 = k
    · simpa [List.filter_cons, hp] using ih
    · simpa [List.filter_cons, hp, assocGet?] using ih

theorem assocErase_of_absent {α : Type} {l : List (String × α)} {k : String}
    (h : assocGet? l k = none) : assocErase l k = l := by
  induction l with
  | nil => rfl
  | cons p l ih =>
    by_cases hp : p.1 = k
    · simp [assocGet?, hp] at h
    · simp only [assocGet?, hp, if_neg, ite_false] at h
      simp [assocErase, hp, ih h]

theorem excel_read_after_write (file : ExcelStorage.File) (name : String)
    (df : DataFrame) :
    ExcelStorage.get_data (ExcelStorage.save_data file name df) name = df := by
  unfold ExcelStorage.get_data ExcelStorage.save_data
  rw [assocGet?_append, assocGet?_filter_ne_self]
  simp [assocGet?]

theorem fb_read_after_write (st : FirebaseStorage.Store) (name : String)
    (df : DataFrame) :
    FirebaseStorage.get_data (FirebaseStorage.save_data st name df) name =
      df.map (fun r => assocErase r "_doc_id") := by
  unfold FirebaseStorage.get_data FirebaseStorage.save_data
  rw [assocGet?_set_self]
  cases df with
  | nil => simp
  | cons r rest =>
    simp only [Option.getD_some, List.map_map]
    rw [if_neg (by simp [List.enum_cons])]
    have comp : ∀ p : ℕ × Record,
        ((fun rr => assocErase rr "_doc_id") ∘
          (fun p => assocSet p.2 "_doc_id" (Value.str p.1)) ∘
          (fun p : ℕ × Record => ("doc_" ++ toString p.1, normRecord p.2))) p =
        ((fun rr => assocErase rr "_doc_id") ∘ Prod.snd) p := by
      intro p
      simp only [Function.comp_apply]
      rw [assocErase_set_self, normRecord_id]
    rw [List.map_congr_left (fun p _ => comp p), ← List.map_map,
      List.enum_map_snd]

theorem im_gds_of_present {st : InMemoryStorage.GlobalState}
    {store : List (String × DataFrame)}
    (h : assocGet? st.all_browser_data (InMemoryStorage.effectiveBid st) =
      some store) :
    InMemoryStorage.get_data_store st = (st, store) := by
  unfold InMemoryStorage.get_data_store
  rw [h]

theorem im_gds_cbid (st : InMemoryStorage.GlobalState) :
    (InMemoryStorage.get_data_store st).1.current_browser_id =
      st.current_browser_id := by
  unfold InMemoryStorage.get_data_store
  cases assocGet? st.all_browser_data (InMemoryStorage.effectiveBid st) <;> rfl

theorem im_gds_registered (st : InMemoryStorage.GlobalState) :
    assocGet? (InMemoryStorage.get_data_store st).1.all_browser_data
      (InMemoryStorage.effectiveBid (InMemoryStorage.get_data_store st).1) =
      some (InMemoryStorage.get_data_store st).2 := by
  unfold InMemoryStorage.get_data_store
  cases h : assocGet? st.all_browser_data (InMemoryStorage.effectiveBid st) with
  | some store => exact h
  | none => exact assocGet?_set_self _ _ _

theorem im_read_after_write (st : InMemoryStorage.GlobalState)
    (name : String) (df : DataFrame) :
    (InMemoryStorage.get_data (InMemoryStorage.save_data st name df) name).2 =
      df := by
  have hreg : assocGet?
      (InMemoryStorage.save_data st name df).all_browser_data
      (InMemoryStorage.effectiveBid (InMemoryStorage.save_data st name df)) =
      some (assocSet (InMemoryStorage.get_data_store st).2 name df) := by
    unfold InMemoryStorage.save_data
    exact assocGet?_set_self _ _ _
  unfold InMemoryStorage.get_data
  rw [im_gds_of_present hreg]
  show (assocGet?
    (assocSet (InMemoryStorage.get_data_store st).2 name df) name).getD [] = df
  rw [assocGet?_set_self]
  rfl

/-- **C2.** Read-after-write holds on every backend: after
`save_data(name, D)`, an immediate `get_data(name)` on the same backend
returns `D` — exactly for the in-memory and file-backed (Excel) backends,
and up to removal of the synthetic `_doc_id` identifier column for the
remote (Firebase) backend; when no record of `D` uses the reserved
`_doc_id` key the remote backend also returns `D` exactly. -/
theorem read_after_write_all_backends :
    (∀ (st : InMemoryStorage.GlobalState) (name : String) (df : DataFrame),
      (InMemoryStorage.get_data (InMemoryStorage.save_data st name df)
        name).2 = df) ∧
    (∀ (file : ExcelStorage.File) (name : String) (df : DataFrame),
      ExcelStorage.get_data (ExcelStorage.save_data file name df) name = df) ∧
    (∀ (st : FirebaseStorage.Store) (name : String) (df : DataFrame),
      FirebaseStorage.get_data (FirebaseStorage.save_data st name df) name =
        df.map (fun r => assocErase r "_doc_id")) ∧
    (∀ (st : FirebaseStorage.Store) (name : String) (df : DataFrame),
      (∀ r ∈ df, assocGet? r "_doc_id" = none) →
      FirebaseStorage.get_data (FirebaseStorage.save_data st name df) name =
        df) := by
  refine ⟨im_read_after_write, excel_read_after_write, fb_read_after_write,
    ?_⟩
  intro st name df h
  rw [fb_read_after_write]
  exact (List.map_congr_left
    (fun r hr => assocErase_of_absent (h r hr))).trans (List.map_id df)

/-- Witness for C2: a one-row dataset without the reserved key round-trips
through the remote backend unchanged. -/
theorem read_after_write_all_backends_witness :
    FirebaseStorage.get_data
      (FirebaseStorage.save_data ⟨[]⟩ "Stocks" [[("quantity", Value.num 3)]])
      "Stocks" = [[("quantity", Value.num 3)]] :=
  read_after_write_all_backends.2.2.2 ⟨[]⟩ "Stocks"
    [[("quantity", Value.num 3)]] (by decide)

theorem im_delete_then_read_empty (st : InMemoryStorage.GlobalState)
    (name : String) :
    (InMemoryStorage.get_data (InMemoryStorage.delete_collection st name)
      name).2 = [] := by
  unfold InMemoryStorage.delete_collection
  by_cases h : (assocGet? (InMemoryStorage.get_data_store st).2 name).isSome
  · rw [if_pos h]
    unfold InMemoryStorage.get_data
    rw [im_gds_of_present (assocGet?_set_self _ _ _)]
    show (assocGet? (assocErase (InMemoryStorage.get_data_store st).2 name)
      name).getD [] = []
    rw [assocGet?_erase_self]
    rfl
  · rw [if_neg h]
    unfold InMemoryStorage.get_data
    rw [im_gds_of_present (im_gds_registered st)]
    show (assocGet? (InMemoryStorage.get_data_store st).2 name).getD [] = []
    cases hx : assocGet? (InMemoryStorage.get_data_store st).2 name with
    | none => rfl
    | some v => rw [hx] at h; simp at h

theorem fb_delete_then_read_empty (st : FirebaseStorage.Store)
    (name : String) :
    FirebaseStorage.get_data (FirebaseStorage.delete_collection st name)
      name = [] := by
  unfold FirebaseStorage.get_data FirebaseStorage.delete_collection
  have hdocs : ∀ l : List (String × List (String × Record)),
      (assocGet? (l.map (fun p =>
        if p.1 = name then (p.1, ([] : List (String × Record))) else p))
        name).getD [] = [] := by
    intro l
    induction l with
    | nil => rfl
    | cons p l ih =>
      by_cases hp : p.1 = name
      · simp [assocGet?, hp]
      · simpa [assocGet?, hp] using ih
  rw [hdocs st.collections]
  rfl

theorem excel_delete_idempotent (file : ExcelStorage.File) (name : String) :
    ExcelStorage.delete_collection (ExcelStorage.delete_collection file name)
      name = ExcelStorage.delete_collection file name := by
  unfold ExcelStorage.delete_collection
  by_cases h : file.filter (fun p => p.1 ≠ name) = []
  · rw [if_pos h, if_pos h]
  · rw [if_neg h]
    have hfix : (file.filter (fun p => p.1 ≠ name)).filter
        (fun p => p.1 ≠ name) = file.filter (fun p => p.1 ≠ name) := by
      rw [List.filter_filter]
      exact List.filter_congr (fun p _ => by simp [Bool.and_self])
    rw [hfix, if_neg h]

theorem excel_delete_then_read_empty (file : ExcelStorage.File)
    (name : String)
    (h : file.filter (fun p => p.1 ≠ name) ≠ []) :
    ExcelStorage.get_data (ExcelStorage.delete_collection file name) name =
      [] := by
  unfold ExcelStorage.get_data ExcelStorage.delete_collection
  rw [if_neg h, assocGet?_filter_ne_self]
  rfl

/-- **C8 (counterexample).** On the file-backed (Excel) backend, deleting
the only remaining sheet is a silent no-op (the `if all_data:` guard skips
the rewrite because a workbook cannot be sheetless), so a subsequent read
returns the old rows, not an empty dataset. -/
theorem delete_last_sheet_not_empty :
    ExcelStorage.get_data
      (ExcelStorage.delete_collection [("X", [[("a", Value.num 1)]])] "X")
      "X" = [[("a", Value.num 1)]] := by decide

/-- **C8 (amended).** `delete_collection` never errors and is idempotent
on every backend, and a subsequent `get_data` of the deleted name returns
an empty dataset — unconditionally for the in-memory and remote backends,
and for the file-backed backend whenever at least one other sheet exists
(deleting the only sheet of the file is a silent no-op). -/
theorem delete_collection_spec :
    (∀ (st : InMemoryStorage.GlobalState) (name : String),
      (InMemoryStorage.get_data (InMemoryStorage.delete_collection st name)
        name).2 = []) ∧
    (∀ (st : FirebaseStorage.Store) (name : String),
      FirebaseStorage.get_data (FirebaseStorage.delete_collection st name)
        name = []) ∧
    (∀ (file : ExcelStorage.File) (name : String),
      ExcelStorage.delete_collection (ExcelStorage.delete_collection file
        name) name = ExcelStorage.delete_collection file name) ∧
    (∀ (file : ExcelStorage.File) (name : String),
      file.filter (fun p => p.1 ≠ name) ≠ [] →
      ExcelStorage.get_data (ExcelStorage.delete_collection file name) name
        = []) :=
  ⟨im_delete_then_read_empty, fb_delete_then_read_empty,
    excel_delete_idempotent, excel_delete_then_read_empty⟩

/-- Witness for C8: deleting sheet `"X"` from a two-sheet file leaves a
file in which `"X"` reads back empty. -/
theorem delete_collection_spec_witness :
    ExcelStorage.get_data
      (ExcelStorage.delete_collection
        [("X", [[("a", Value.num 1)]]), ("Summary", [])] "X") "X" = [] :=
  delete_collection_spec.2.2.2
    [("X", [[("a", Value.num 1)]]), ("Summary", [])] "X" (by decide)

/-- The current scope's store exists and contains a `Summary` collection. -/
def scopeHasSummary (st : InMemoryStorage.GlobalState) : Bool :=
  ((assocGet? st.all_browser_data (InMemoryStorage.effectiveBid st)).bind
    (fun store => assocGet? store "Summary")).isSome

theorem assocGet?_set_isSome {α : Type} (l : List (String × α))
    (k k' : String) (v : α) (h : (assocGet? l k').isSome) :
    (assocGet? (assocSet l k v) k').isSome := by
  by_cases hk : k = k'
  · subst hk
    rw [assocGet?_set_self]
    rfl
  · rw [assocGet?_set_ne l k k' v hk]
    exact h

theorem scopeHasSummary_first_access (st : InMemoryStorage.GlobalState)
    (h : assocGet? st.all_browser_data (InMemoryStorage.effectiveBid st) =
      none) :
    scopeHasSummary (InMemoryStorage.get_data_store st).1 = true := by
  unfold InMemoryStorage.get_data_store
  rw [h]
  show ((assocGet? (assocSet st.all_browser_data
    (InMemoryStorage.effectiveBid st) [("Summary", [])])
    (InMemoryStorage.effectiveBid st)).bind
    (fun store => assocGet? store "Summary")).isSome = true
  rw [assocGet?_set_self]
  rfl

theorem summary_in_padded_store (store : List (String × DataFrame)) :
    (assocGet? (if (assocGet? store "Summary").isSome then store
      else store ++ [("Summary", ([] : DataFrame))]) "Summary").isSome =
      true := by
  by_cases h : (assocGet? store "Summary").isSome
  · rw [if_pos h]
    exact h
  · rw [if_neg h]
    have hnone := Option.not_isSome_iff_eq_none.mp h
    simp [assocGet?_append, hnone, assocGet?]

theorem scopeHasSummary_load_all_data (st : InMemoryStorage.GlobalState)
    (data : List (String × List Record)) :
    scopeHasSummary (InMemoryStorage.load_all_data st data) = true := by
  unfold scopeHasSummary
  simp only [InMemoryStorage.load_all_data, InMemoryStorage.effectiveBid]
  rw [assocGet?_set_self]
  exact summary_in_padded_store _

theorem scopeHasSummary_save_data (st : InMemoryStorage.GlobalState)
    (name : String) (df : DataFrame) (h : scopeHasSummary st = true) :
    scopeHasSummary (InMemoryStorage.save_data st name df) = true := by
  unfold scopeHasSummary at h
  cases hs : assocGet? st.all_browser_data (InMemoryStorage.effectiveBid st)
    with
  | none => rw [hs] at h; simp at h
  | some store =>
    rw [hs] at h
    simp only [Option.some_bind] at h
    unfold InMemoryStorage.save_data
    rw [im_gds_of_present hs]
    unfold scopeHasSummary
    show ((assocGet? (assocSet st.all_browser_data
      (InMemoryStorage.effectiveBid st) (assocSet store name df))
      (InMemoryStorage.effectiveBid st)).bind
      (fun s2 => assocGet? s2 "Summary")).isSome = true
    rw [assocGet?_set_self]
    simpa using assocGet?_set_isSome store name "Summary" df (by simpa using h)

theorem scopeHasSummary_delete_other (st : InMemoryStorage.GlobalState)
    (name : String) (hname : name ≠ "Summary")
    (h : scopeHasSummary st = true) :
    scopeHasSummary (InMemoryStorage.delete_collection st name) = true := by
  unfold scopeHasSummary at h
  cases hs : assocGet? st.all_browser_data (InMemoryStorage.effectiveBid st)
    with
  | none => rw [hs] at h; simp at h
  | some store =>
    rw [hs] at h
    simp only [Option.some_bind] at h
    unfold InMemoryStorage.delete_collection
    rw [im_gds_of_present hs]
    by_cases hp : (assocGet? store name).isSome
    · rw [if_pos hp]
      unfold scopeHasSummary
      show ((assocGet? (assocSet st.all_browser_data
        (InMemoryStorage.effectiveBid st) (assocErase store name))
        (InMemoryStorage.effectiveBid st)).bind
        (fun s2 => assocGet? s2 "Summary")).isSome = true
      rw [assocGet?_set_self, Option.some_bind,
        assocGet?_erase_ne store name "Summary" hname]
      exact h
    · rw [if_neg hp]
      unfold scopeHasSummary
      rw [hs, Option.some_bind]
      exact h

/-- **C9 (counterexample).** `delete_collection("Summary")` is a backend
operation that removes the `Summary` collection: starting from a fresh
scope, after it the scope's collection list is empty. -/
theorem summary_removable_by_delete :
    scopeHasSummary
      (InMemoryStorage.delete_collection ⟨[], none⟩ "Summary") = false ∧
    (InMemoryStorage.get_collection_names
      (InMemoryStorage.delete_collection ⟨[], none⟩ "Summary")).2 = [] := by
  constructor <;> decide

/-- **C9 (amended).** For the in-memory backend the `Summary` collection
is present as soon as a scope's store is first accessed, is present after
every bulk load (even when the loaded data has no `Summary` key), and is
preserved by `save_data` of any collection and by `delete_collection` of
any *other* collection — but `delete_collection("Summary")` itself
removes it. -/
theorem summary_always_present :
    (∀ st : InMemoryStorage.GlobalState,
      assocGet? st.all_browser_data (InMemoryStorage.effectiveBid st) =
        none →
      scopeHasSummary (InMemoryStorage.get_data_store st).1 = true) ∧
    (∀ (st : InMemoryStorage.GlobalState)
      (data : List (String × List Record)),
      scopeHasSummary (InMemoryStorage.load_all_data st data) = true) ∧
    (∀ (st : InMemoryStorage.GlobalState) (name : String) (df : DataFrame),
      scopeHasSummary st = true →
      scopeHasSummary (InMemoryStorage.save_data st name df) = true) ∧
    (∀ (st : InMemoryStorage.GlobalState) (name : String),
      name ≠ "Summary" → scopeHasSummary st = true →
      scopeHasSummary (InMemoryStorage.delete_collection st name) = true) :=
  ⟨scopeHasSummary_first_access, scopeHasSummary_load_all_data,
    scopeHasSummary_save_data, scopeHasSummary_delete_other⟩

/-- Witness for C9: first access to a fresh scope installs `Summary`, and
deleting another collection keeps it. -/
theorem summary_always_present_witness :
    scopeHasSummary
      (InMemoryStorage.get_data_store ⟨[], none⟩).1 = true ∧
    scopeHasSummary
      (InMemoryStorage.delete_collection
        ⟨[("default", [("Summary", [])])], none⟩ "Stocks") = true :=
  ⟨summary_always_present.1 ⟨[], none⟩ (by decide),
    summary_always_present.2.2.2 ⟨[("default", [("Summary", [])])], none⟩
      "Stocks" (by decide) (by decide)⟩

/-! ### Scope isolation of the in-memory backend -/

theorem im_effectiveBid_gds (st : InMemoryStorage.GlobalState) :
    InMemoryStorage.effectiveBid (InMemoryStorage.get_data_store st).1 =
      InMemoryStorage.effectiveBid st := by
  unfold InMemoryStorage.effectiveBid
  rw [im_gds_cbid]

theorem im_gds_frame (st : InMemoryStorage.GlobalState) (k : String)
    (h : k ≠ InMemoryStorage.effectiveBid st) :
    assocGet? (InMemoryStorage.get_data_store st).1.all_browser_data k =
      assocGet? st.all_browser_data k := by
  unfold InMemoryStorage.get_data_store
  cases hs : assocGet? st.all_browser_data (InMemoryStorage.effectiveBid st)
    with
  | some store => rfl
  | none =>
    show assocGet? (assocSet st.all_browser_data
      (InMemoryStorage.effectiveBid st) [("Summary", [])]) k =
      assocGet? st.all_browser_data k
    exact assocGet?_set_ne _ _ _ _ (Ne.symm h)

theorem im_save_frame (st : InMemoryStorage.GlobalState) (name : String)
    (df : DataFrame) (k : String)
    (h : k ≠ InMemoryStorage.effectiveBid st) :
    assocGet? (InMemoryStorage.save_data st name df).all_browser_data k =
      assocGet? st.all_browser_data k := by
  unfold InMemoryStorage.save_data
  show assocGet? (assocSet (InMemoryStorage.get_data_store st).1.all_browser_data (InMemoryStorage.effectiveBid (InMemoryStorage.get_data_store st).1) (assocSet (InMemoryStorage.get_data_store st).2 name df)) k = assocGet? st.all_browser_data k
  rw [assocGet?_set_ne _ _ _ _ (by rw [im_effectiveBid_gds]; exact Ne.symm h)]
  exact im_gds_frame st k h

theorem im_delete_frame (st : InMemoryStorage.GlobalState) (name : String)
    (k : String) (h : k ≠ InMemoryStorage.effectiveBid st) :
    assocGet?
      (InMemoryStorage.delete_collection st name).all_browser_data k =
      assocGet? st.all_browser_data k := by
  unfold InMemoryStorage.delete_collection
  by_cases hp : (assocGet? (InMemoryStorage.get_data_store st).2 name).isSome
  · rw [if_pos hp]
    show assocGet? (assocSet (InMemoryStorage.get_data_store st).1.all_browser_data (InMemoryStorage.effectiveBid (InMemoryStorage.get_data_store st).1) (assocErase (InMemoryStorage.get_data_store st).2 name)) k = assocGet? st.all_browser_data k
    rw [assocGet?_set_ne _ _ _ _ (by rw [im_effectiveBid_gds]; exact Ne.symm h)]
    exact im_gds_frame st k h
  · rw [if_neg hp]
    exact im_gds_frame st k h

theorem im_load_frame (st : InMemoryStorage.GlobalState)
    (data : List (String × List Record)) (k : String)
    (h : k ≠ InMemoryStorage.effectiveBid st) :
    assocGet? (InMemoryStorage.load_all_data st data).all_browser_data k =
      assocGet? st.all_browser_data k := by
  unfold InMemoryStorage.load_all_data
  exact assocGet?_set_ne _ _ _ _ (Ne.symm h)

theorem im_observation_eq (st1 st2 : InMemoryStorage.GlobalState)
    (hb : assocGet? st1.all_browser_data (InMemoryStorage.effectiveBid st1) =
      assocGet? st2.all_browser_data (InMemoryStorage.effectiveBid st2)) :
    (∀ col, (InMemoryStorage.get_data st1 col).2 =
      (InMemoryStorage.get_data st2 col).2) ∧
    (InMemoryStorage.export_all_data st1).2 =
      (InMemoryStorage.export_all_data st2).2 := by
  have hstore : (InMemoryStorage.get_data_store st1).2 =
      (InMemoryStorage.get_data_store st2).2 := by
    unfold InMemoryStorage.get_data_store
    rw [hb]
    cases assocGet? st2.all_browser_data (InMemoryStorage.effectiveBid st2)
      <;> rfl
  constructor
  · intro col
    show (assocGet? (InMemoryStorage.get_data_store st1).2 col).getD [] =
      (assocGet? (InMemoryStorage.get_data_store st2).2 col).getD []
    rw [hstore]
  · show (InMemoryStorage.get_data_store st1).2.map _ =
      (InMemoryStorage.get_data_store st2).2.map _
    rw [hstore]

/-- **C10.** Scope isolation of the in-memory backend: with two distinct
scope ids `A ≠ B`, a `save_data`, `delete_collection` or `load_all_data`
performed while `A` is the current scope leaves every observation under
scope `B` — both `get_data` of any collection and `export_all_data` —
exactly as it was. -/
theorem scope_isolation (st : InMemoryStorage.GlobalState)
    (A B name col : String) (df : DataFrame)
    (data : List (String × List Record)) (h : A ≠ B) :
    ((InMemoryStorage.get_data (InMemoryStorage.set_browser_id
        (InMemoryStorage.save_data (InMemoryStorage.set_browser_id st A)
          name df) B) col).2 =
      (InMemoryStorage.get_data (InMemoryStorage.set_browser_id st B)
        col).2) ∧
    ((InMemoryStorage.export_all_data (InMemoryStorage.set_browser_id
        (InMemoryStorage.save_data (InMemoryStorage.set_browser_id st A)
          name df) B)).2 =
      (InMemoryStorage.export_all_data
        (InMemoryStorage.set_browser_id st B)).2) ∧
    ((InMemoryStorage.get_data (InMemoryStorage.set_browser_id
        (InMemoryStorage.delete_collection
          (InMemoryStorage.set_browser_id st A) name) B) col).2 =
      (InMemoryStorage.get_data (InMemoryStorage.set_browser_id st B)
        col).2) ∧
    ((InMemoryStorage.export_all_data (InMemoryStorage.set_browser_id
        (InMemoryStorage.delete_collection
          (InMemoryStorage.set_browser_id st A) name) B)).2 =
      (InMemoryStorage.export_all_data
        (InMemoryStorage.set_browser_id st B)).2) ∧
    ((InMemoryStorage.get_data (InMemoryStorage.set_browser_id
        (InMemoryStorage.load_all_data
          (InMemoryStorage.set_browser_id st A) data) B) col).2 =
      (InMemoryStorage.get_data (InMemoryStorage.set_browser_id st B)
        col).2) ∧
    ((InMemoryStorage.export_all_data (InMemoryStorage.set_browser_id
        (InMemoryStorage.load_all_data
          (InMemoryStorage.set_browser_id st A) data) B)).2 =
      (InMemoryStorage.export_all_data
        (InMemoryStorage.set_browser_id st B)).2) := by
  have hA : B ≠ InMemoryStorage.effectiveBid
      (InMemoryStorage.set_browser_id st A) := Ne.symm h
  have hbS := im_save_frame (InMemoryStorage.set_browser_id st A) name df B hA
  have hbD := im_delete_frame (InMemoryStorage.set_browser_id st A) name B hA
  have hbL := im_load_frame (InMemoryStorage.set_browser_id st A) data B hA
  exact ⟨(im_observation_eq _ _ hbS).1 col, (im_observation_eq _ _ hbS).2,
    (im_observation_eq _ _ hbD).1 col, (im_observation_eq _ _ hbD).2,
    (im_observation_eq _ _ hbL).1 col, (im_observation_eq _ _ hbL).2⟩

/-- Witness for C10: saving under scope `"alice"` does not change what
scope `"bob"` reads. -/
theorem scope_isolation_witness :
    (InMemoryStorage.get_data (InMemoryStorage.set_browser_id
      (InMemoryStorage.save_data
        (InMemoryStorage.set_browser_id
          ⟨[("bob", [("Summary", [[("x", Value.num 7)]])])], none⟩ "alice")
        "Summary" []) "bob") "Summary").2 =
    (InMemoryStorage.get_data (InMemoryStorage.set_browser_id
      ⟨[("bob", [("Summary", [[("x", Value.num 7)]])])], none⟩ "bob")
      "Summary").2 :=
  (scope_isolation ⟨[("bob", [("Summary", [[("x", Value.num 7)]])])], none⟩
    "alice" "bob" "Summary" "Summary" [] [] (by decide)).1

/-! ### Forecast engine (`api_services.py` 189-230, `models.py` 171-184) -/

/-- `DEFAULT_RETURNS` (`models.py` 171-184). -/
def DEFAULT_RETURNS : List (String × ℚ) :=
  [("mutual_fund_equity", 12), ("mutual_fund_debt", 7),
   ("mutual_fund_hybrid", 10), ("stocks", 12), ("real_estate", 8),
   ("gold", 8), ("silver", 7), ("nps", 10), ("ppf", 71/10),
   ("epf", 33/4), ("fd", 7), ("savings", 7/2)]

/-- `calculate_future_value` (`api_services.py` 189-201):
`present_value * ((1 + annual_return / 100) ** years)`. -/
def calculate_future_value (present_value annual_return : ℚ)
    (years : ℕ) : ℚ :=
  present_value * ((1 + annual_return / 100) ^ years)

/-- An entry of the `assets` dict passed to `generate_forecast`:
`{'value': …, 'expected_return': …}`, read back with
`.get('value', 0)` and `.get('expected_return', 8)`. -/
structure AssetInfo where
  value : Option ℚ := none
  expected_return : Option ℚ := none
deriving DecidableEq, Repr

/-- Round to the nearest integer, ties to even — the idealised model of
Python 3 `round` (float representation error is not modelled). -/
def roundHalfEven (q : ℚ) : ℤ :=
  if q - (Int.floor q : ℚ) < 1/2 then Int.floor q
  else if (1 : ℚ)/2 < q - (Int.floor q : ℚ) then Int.floor q + 1
  else if Int.floor q % 2 = 0 then Int.floor q else Int.floor q + 1

/-- Python `round(x, 2)`. -/
def pyRound2 (q : ℚ) : ℚ :=
  (roundHalfEven (q * 100) : ℚ) / 100

/-- One step of the inner asset loop of `generate_forecast`: write the
rounded future value under the asset's label and add the unrounded value
to the running total. -/
def forecastStep (year : ℕ) (acc : Record × ℚ) (a : String × AssetInfo) :
    Record × ℚ :=
  (assocSet acc.1 a.1 (Value.num (pyRound2 (calculate_future_value
      (a.2.value.getD 0) (a.2.expected_return.getD 8) year))),
    acc.2 + calculate_future_value (a.2.value.getD 0)
      (a.2.expected_return.getD 8) year)

/-- One year's row of `generate_forecast`: start from `{'year': year}`,
loop over the assets, then set `'total'` to the rounded running total. -/
def forecastYearRow (assets : List (String × AssetInfo)) (year : ℕ) :
    Record :=
  let folded := assets.foldl (forecastStep year)
    ([("year", Value.num year)], 0)
  assocSet folded.1 "total" (Value.num (pyRound2 folded.2))

/-- `generate_forecast` (`api_services.py` 203-230): one row per year for
`year in range(years + 1)`. -/
def generate_forecast (assets : List (String × AssetInfo)) (years : ℕ) :
    List Record :=
  (List.range (years + 1)).map (forecastYearRow assets)

theorem forecast_fold_total (year : ℕ) (l : List (String × AssetInfo))
    (acc : Record × ℚ) :
    (l.foldl (forecastStep year) acc).2 =
      acc.2 + (l.map (fun a => calculate_future_value (a.2.value.getD 0)
        (a.2.expected_return.getD 8) year)).sum := by
  induction l generalizing acc with
  | nil => simp
  | cons hd tl ih =>
    simp only [List.foldl_cons, List.map_cons, List.sum_cons]
    rw [ih]
    show acc.2 + _ + _ = _
    ring

theorem forecast_fold_frame (year : ℕ) (l : List (String × AssetInfo))
    (acc : Record × ℚ) (k : String) (h : k ∉ l.map Prod.fst) :
    assocGet? (l.foldl (forecastStep year) acc).1 k = assocGet? acc.1 k := by
  induction l generalizing acc with
  | nil => rfl
  | cons hd tl ih =>
    simp only [List.map_cons, List.mem_cons, not_or] at h
    simp only [List.foldl_cons]
    rw [ih _ h.2]
    exact assocGet?_set_ne _ _ _ _ (Ne.symm h.1)

theorem forecast_fold_asset (year : ℕ) (l : List (String × AssetInfo))
    (acc : Record × ℚ) (hnodup : (l.map Prod.fst).Nodup) :
    ∀ a ∈ l, assocGet? (l.foldl (forecastStep year) acc).1 a.1 =
      some (Value.num (pyRound2 (calculate_future_value
        (a.2.value.getD 0) (a.2.expected_return.getD 8) year))) := by
  induction l generalizing acc with
  | nil => intro a ha; cases ha
  | cons hd tl ih =>
    simp only [List.map_cons, List.nodup_cons] at hnodup
    intro a ha
    rcases List.mem_cons.mp ha with rfl | hmem
    · simp only [List.foldl_cons]
      rw [forecast_fold_frame year tl _ a.1 hnodup.1]
      exact assocGet?_set_self _ _ _
    · simp only [List.foldl_cons]
      exact ih _ hnodup.2 a hmem

theorem roundHalfEven_intCast (n : ℤ) : roundHalfEven ((n : ℚ)) = n := by
  unfold roundHalfEven
  rw [Int.floor_intCast, sub_self, if_pos (by norm_num)]

theorem pyRound2_intCast (n : ℤ) : pyRound2 ((n : ℚ)) = n := by
  unfold pyRound2
  have h : ((n : ℚ)) * 100 = (((n * 100 : ℤ)) : ℚ) := by push_cast; ring
  rw [h, roundHalfEven_intCast]
  push_cast
  field_simp

/-- **C6 (counterexample).** An asset labelled `"total"` collides with the
row's grand-total field: its own rounded future value (50) is overwritten
by the grand total (150), so the row does not map every asset label to
that asset's rounded future value. -/
theorem forecast_total_label_clobbered :
    assocGet? (forecastYearRow
      [("A", ⟨some 100, some 0⟩), ("total", ⟨some 50, some 0⟩)] 0)
      "total" = some (Value.num 150) ∧
    assocGet? (forecastYearRow
      [("A", ⟨some 100, some 0⟩), ("total", ⟨some 50, some 0⟩)] 0)
      "total" ≠ some (Value.num (pyRound2
        (calculate_future_value 50 0 0))) := by
  have hfvA : calculate_future_value 100 0 0 = 100 := by
    norm_num [calculate_future_value]
  have hfvT : calculate_future_value 50 0 0 = 50 := by
    norm_num [calculate_future_value]
  have h150 : pyRound2 150 = 150 := by
    have := pyRound2_intCast 150
    norm_num at this
    exact this
  have h50 : pyRound2 50 = 50 := by
    have := pyRound2_intCast 50
    norm_num at this
    exact this
  have hrow : assocGet? (forecastYearRow
      [("A", ⟨some 100, some 0⟩), ("total", ⟨some 50, some 0⟩)] 0)
      "total" = some (Value.num 150) := by
    unfold forecastYearRow forecastStep
    simp only [List.foldl_cons, List.foldl_nil]
    norm_num [hfvA, hfvT, h150, h50, assocSet, assocGet?]
    decide
  refine ⟨hrow, ?_⟩
  rw [hrow, hfvT, h50]
  intro hcontra
  have : (150 : ℚ) = 50 := by
    injection hcontra with h2
    injection h2
  norm_num at this

/-- **C6 (amended).** For every asset mapping whose labels are distinct
and avoid the reserved row keys `"year"` and `"total"`, and every horizon:
the forecast has exactly `horizon + 1` rows, the row at index `y` is the
year-`y` row; each year-`y` row carries `year = y`, `total` = the rounded
sum of the unrounded future values, and for each asset its rounded future
value `value * (1 + rate/100) ^ y`; moreover
`future_value(1000,10,0) = 1000` and `future_value(1000,10,1) = 1100`. -/
theorem generate_forecast_spec (assets : List (String × AssetInfo))
    (years : ℕ) (hnodup : (assets.map Prod.fst).Nodup)
    (hyear : "year" ∉ assets.map Prod.fst)
    (htotal : "total" ∉ assets.map Prod.fst) :
    (generate_forecast assets years).length = years + 1 ∧
    (∀ y, y < years + 1 → (generate_forecast assets years)[y]? =
      some (forecastYearRow assets y)) ∧
    (∀ y : ℕ, assocGet? (forecastYearRow assets y) "year" =
      some (Value.num y)) ∧
    (∀ y : ℕ, assocGet? (forecastYearRow assets y) "total" =
      some (Value.num (pyRound2 ((assets.map
        (fun a => calculate_future_value (a.2.value.getD 0)
          (a.2.expected_return.getD 8) y)).sum)))) ∧
    (∀ y : ℕ, ∀ a ∈ assets, assocGet? (forecastYearRow assets y) a.1 =
      some (Value.num (pyRound2 (calculate_future_value
        (a.2.value.getD 0) (a.2.expected_return.getD 8) y)))) ∧
    calculate_future_value 1000 10 0 = 1000 ∧
    calculate_future_value 1000 10 1 = 1100 := by
  refine ⟨?_, ?_, ?_, ?_, ?_, by norm_num [calculate_future_value],
    by norm_num [calculate_future_value]⟩
  · simp [generate_forecast]
  · intro y hy
    simp [generate_forecast, hy]
  · intro y
    unfold forecastYearRow
    rw [assocGet?_set_ne _ _ _ _ (by decide),
      forecast_fold_frame y assets _ "year" hyear]
    rfl
  · intro y
    unfold forecastYearRow
    rw [assocGet?_set_self, forecast_fold_total]
    show some (Value.num (pyRound2 (0 + _))) = _
    rw [zero_add]
  · intro y a ha
    unfold forecastYearRow
    have hne : a.1 ≠ "total" := by
      intro hcontra
      exact htotal (hcontra ▸ List.mem_map_of_mem Prod.fst ha)
    rw [assocGet?_set_ne _ _ _ _ (Ne.symm hne)]
    exact forecast_fold_asset y assets _ hnodup a ha

/-- Witness for C6: a single asset worth 1000 at 10% gives a two-row
forecast whose year-1 row carries 1100 for the asset. -/
theorem generate_forecast_spec_witness :
    (generate_forecast [("A", ⟨some 1000, some 10⟩)] 1).length = 1 + 1 ∧
    assocGet? (forecastYearRow [("A", ⟨some 1000, some 10⟩)] 1) "A" =
      some (Value.num (pyRound2 (calculate_future_value 1000 10 1))) :=
  ⟨(generate_forecast_spec [("A", ⟨some 1000, some 10⟩)] 1 (by decide)
      (by decide) (by decide)).1,
    (generate_forecast_spec [("A", ⟨some 1000, some 10⟩)] 1 (by decide)
      (by decide) (by decide)).2.2.2.2.1 1 ("A", ⟨some 1000, some 10⟩)
      (by decide)⟩

/-! ### Per-asset expected returns (`build_forecast_assets`,
`routes.py` 143-210) -/

/-- `DEFAULT_RETURNS[key]` (the source indexes the dict directly; every
key used exists). -/
def dfltReturn (k : String) : ℚ :=
  (assocGet? DEFAULT_RETURNS k).getD 0

/-- The list comprehension
`[float(r.get(f, 0) or 0) for r in items if r.get(f)]`: keep the records
whose `f` value is present and truthy, then coerce each kept value — a
coercion failure raises out of the whole function (`Except.error`). -/
def ratesOf (field : String) (items : List Record) :
    Except Unit (List ℚ) :=
  (items.filterMap (fun r =>
    match assocGet? r field with
    | some v => if pyFalsy v then none else some v
    | none => none)).mapM (fun v =>
      match pyFloat? (pyOr0 v) with
      | some q => Except.ok q
      | none => Except.error ())

/-- The per-type rate: the default unless the item list is nonempty and
yields a nonempty rate list, in which case the arithmetic mean. -/
def avgReturn (dflt : ℚ) (field : String) (items : List Record) :
    Except Unit ℚ :=
  match items with
  | [] => Except.ok dflt
  | _ :: _ =>
    match ratesOf field items with
    | Except.error e => Except.error e
    | Except.ok rs =>
      if rs = [] then Except.ok dflt
      else Except.ok (rs.sum / rs.length)

/-- One `if summary[x] > 0: assets[label] = {...}` block of
`build_forecast_assets`. -/
def addLine (cond : Prop) [Decidable cond] (label : String) (value : ℚ)
    (rate : Except Unit ℚ)
    (acc : Except Unit (List (String × AssetInfo))) :
    Except Unit (List (String × AssetInfo)) :=
  match acc with
  | Except.error e => Except.error e
  | Except.ok a =>
    if cond then
      match rate with
      | Except.error e => Except.error e
      | Except.ok r => Except.ok (assocSet a label ⟨some value, some r⟩)
    else Except.ok a

/-- `build_forecast_assets` (`routes.py` 143-210): nine blocks in source
order (mutual funds, stocks, real estate, gold, silver, bank balance,
NPS, PPF, EPF).  Mutual funds, stocks, real estate (via
`appreciation_rate`), gold, silver and NPS read per-record rates; bank
balance, PPF and EPF always use their category defaults. -/
def build_forecast_assets (all_data : List (String × List Record))
    (summary : Summary) : Except Unit (List (String × AssetInfo)) :=
  addLine (summary.epf > 0) "EPF" summary.epf
    (Except.ok (dfltReturn "epf"))
    (addLine (summary.ppf > 0) "PPF" summary.ppf
      (Except.ok (dfltReturn "ppf"))
      (addLine (summary.nps > 0) "NPS" summary.nps
        (avgReturn (dfltReturn "nps") "expected_return"
          ((assocGet? all_data "NPS Accounts").getD []))
        (addLine (summary.bank_balance > 0) "Bank Balance"
          summary.bank_balance (Except.ok (dfltReturn "savings"))
          (addLine (summary.silver > 0) "Silver" summary.silver
            (avgReturn (dfltReturn "silver") "expected_return"
              ((assocGet? all_data "Silver").getD []))
            (addLine (summary.gold > 0) "Gold" summary.gold
              (avgReturn (dfltReturn "gold") "expected_return"
                ((assocGet? all_data "Gold").getD []))
              (addLine (summary.real_estate > 0) "Real Estate"
                summary.real_estate
                (avgReturn (dfltReturn "real_estate") "appreciation_rate"
                  ((assocGet? all_data "Real Estate").getD []))
                (addLine (summary.stocks > 0) "Stocks" summary.stocks
                  (avgReturn (dfltReturn "stocks") "expected_return"
                    ((assocGet? all_data "Stocks").getD []))
                  (addLine (summary.mutual_funds > 0) "Mutual Funds"
                    summary.mutual_funds
                    (avgReturn (dfltReturn "mutual_fund_equity")
                      "expected_return"
                      ((assocGet? all_data "Mutual Funds").getD []))
                    (Except.ok [])))))))))

theorem addLine_ok {cond : Prop} [Decidable cond] {label : String}
    {value : ℚ} {rate : Except Unit ℚ}
    {acc : Except Unit (List (String × AssetInfo))}
    {a : List (String × AssetInfo)}
    (h : addLine cond label value rate acc = Except.ok a) :
    ∃ a0, acc = Except.ok a0 ∧
      ((cond → ∃ q, rate = Except.ok q ∧
        a = assocSet a0 label ⟨some value, some q⟩) ∧
       (¬cond → a = a0)) := by
  cases acc with
  | error e => simp [addLine] at h
  | ok a0 =>
    refine ⟨a0, rfl, ?_, ?_⟩
    · intro hc
      simp only [addLine] at h
      rw [if_pos hc] at h
      cases rate with
      | error e => cases h
      | ok q =>
        refine ⟨q, rfl, ?_⟩
        cases h
        rfl
    · intro hc
      simp only [addLine] at h
      rw [if_neg hc] at h
      cases h
      rfl

theorem addLine_preserve (k : String) {cond : Prop} [Decidable cond]
    {label : String} {value : ℚ} {rate : Except Unit ℚ}
    {acc : Except Unit (List (String × AssetInfo))}
    {a a0 : List (String × AssetInfo)} (hk : k ≠ label)
    (h : addLine cond label value rate acc = Except.ok a)
    (h0 : acc = Except.ok a0) :
    assocGet? a k = assocGet? a0 k := by
  obtain ⟨a1, h1, hpos, hneg⟩ := addLine_ok h
  rw [h0] at h1
  cases h1
  by_cases hc : cond
  · obtain ⟨q, _, hset⟩ := hpos hc
    rw [hset]
    exact assocGet?_set_ne _ _ _ _ (Ne.symm hk)
  · rw [hneg hc]

theorem avgReturn_of_no_rates (dflt : ℚ) (field : String)
    (items : List Record)
    (h : ratesOf field items = Except.ok []) :
    avgReturn dflt field items = Except.ok dflt := by
  cases items with
  | nil => rfl
  | cons r rest =>
    unfold avgReturn
    simp only [h]
    simp

theorem avgReturn_of_rates (dflt : ℚ) (field : String)
    (items : List Record) (qs : List ℚ)
    (h : ratesOf field items = Except.ok qs) (hne : qs ≠ []) :
    avgReturn dflt field items = Except.ok (qs.sum / qs.length) := by
  cases items with
  | nil =>
    have h0 : ratesOf field ([] : List Record) = Except.ok [] := rfl
    rw [h0] at h
    injection h with h2
    exact absurd h2.symm hne
  | cons r rest =>
    unfold avgReturn
    simp only [h]
    rw [if_neg hne]

theorem addLine_ok2 {cond : Prop} [Decidable cond] {label : String}
    {value : ℚ} {rate : Except Unit ℚ} {a0 a : List (String × AssetInfo)}
    (h : addLine cond label value rate (Except.ok a0) = Except.ok a)
    (hc : cond) :
    ∃ q, rate = Except.ok q ∧
      a = assocSet a0 label ⟨some value, some q⟩ := by
  obtain ⟨a1, h0, hpos, _⟩ := addLine_ok h
  injection h0 with hh
  subst hh
  exact hpos hc

theorem build_layers {d : List (String × List Record)} {s : Summary}
    {a : List (String × AssetInfo)}
    (h : build_forecast_assets d s = Except.ok a) :
    ∃ a1 a2 a3 a4 a5 a6 a7 a8 : List (String × AssetInfo),
      addLine (s.mutual_funds > 0) "Mutual Funds" s.mutual_funds
        (avgReturn (dfltReturn "mutual_fund_equity") "expected_return"
        ((assocGet? d "Mutual Funds").getD []))
        (Except.ok []) = Except.ok a1 ∧
      addLine (s.stocks > 0) "Stocks" s.stocks
        (avgReturn (dfltReturn "stocks") "expected_return"
        ((assocGet? d "Stocks").getD []))
        (Except.ok a1) = Except.ok a2 ∧
      addLine (s.real_estate > 0) "Real Estate" s.real_estate
        (avgReturn (dfltReturn "real_estate") "appreciation_rate"
        ((assocGet? d "Real Estate").getD []))
        (Except.ok a2) = Except.ok a3 ∧
      addLine (s.gold > 0) "Gold" s.gold
        (avgReturn (dfltReturn "gold") "expected_return"
        ((assocGet? d "Gold").getD []))
        (Except.ok a3) = Except.ok a4 ∧
      addLine (s.silver > 0) "Silver" s.silver
        (avgReturn (dfltReturn "silver") "expected_return"
        ((assocGet? d "Silver").getD []))
        (Except.ok a4) = Except.ok a5 ∧
      addLine (s.bank_balance > 0) "Bank Balance" s.bank_balance
        (Except.ok (dfltReturn "savings"))
        (Except.ok a5) = Except.ok a6 ∧
      addLine (s.nps > 0) "NPS" s.nps
        (avgReturn (dfltReturn "nps") "expected_return"
        ((assocGet? d "NPS Accounts").getD []))
        (Except.ok a6) = Except.ok a7 ∧
      addLine (s.ppf > 0) "PPF" s.ppf
        (Except.ok (dfltReturn "ppf"))
        (Except.ok a7) = Except.ok a8 ∧
      addLine (s.epf > 0) "EPF" s.epf
        (Except.ok (dfltReturn "epf"))
        (Except.ok a8) = Except.ok a := by
  unfold build_forecast_assets at h
  obtain ⟨a8, h8, _⟩ := addLine_ok h
  rw [h8] at h
  obtain ⟨a7, h7, _⟩ := addLine_ok h8
  rw [h7] at h8
  obtain ⟨a6, h6, _⟩ := addLine_ok h7
  rw [h6] at h7
  obtain ⟨a5, h5, _⟩ := addLine_ok h6
  rw [h5] at h6
  obtain ⟨a4, h4, _⟩ := addLine_ok h5
  rw [h4] at h5
  obtain ⟨a3, h3, _⟩ := addLine_ok h4
  rw [h3] at h4
  obtain ⟨a2, h2, _⟩ := addLine_ok h3
  rw [h2] at h3
  obtain ⟨a1, h1, _⟩ := addLine_ok h2
  rw [h1] at h2
  exact ⟨a1, a2, a3, a4, a5, a6, a7, a8, h1, h2, h3, h4, h5, h6, h7, h8, h⟩

/-- **C7 (counterexample).** Two PPF records carrying explicit
`expected_return` rates 5 and 6 are ignored: the PPF forecast line uses
the category default 7.1, not the arithmetic mean 5.5. -/
theorem ppf_rate_ignores_records :
    build_forecast_assets
      [("PPF", [[("current_balance", Value.num 100),
                 ("expected_return", Value.num 5)],
                [("current_balance", Value.num 100),
                 ("expected_return", Value.num 6)]])]
      { ppf := 200 } =
      Except.ok [("PPF", ⟨some 200, some (71/10)⟩)] ∧
    (71/10 : ℚ) ≠ ((5 : ℚ) + 6) / 2 := by
  constructor
  · norm_num [build_forecast_assets, addLine, avgReturn, dfltReturn,
      DEFAULT_RETURNS, assocGet?, assocSet]
    simp
  · norm_num

/-- **C7 (amended).** When building per-asset expected returns: for each
rate-reading type — mutual funds, stocks, real estate (via
`appreciation_rate`), gold, silver and NPS — the documented category
default (12, 12, 8, 8, 7, 10) is used when no record carries a truthy
explicit rate, and the arithmetic mean of the extracted per-record rates
is used when any are present; bank balance, PPF and EPF always use their
category defaults (3.5, 7.1, 8.25) regardless of any per-record rates;
and fixed deposits get no forecast line at all. -/
theorem build_forecast_assets_spec :
    (∀ (d : List (String × List Record)) (s : Summary)
      (a : List (String × AssetInfo)),
      build_forecast_assets d s = Except.ok a → s.mutual_funds > 0 →
      ratesOf "expected_return" ((assocGet? d "Mutual Funds").getD []) =
        Except.ok [] →
      assocGet? a "Mutual Funds" = some ⟨some s.mutual_funds, some 12⟩) ∧
    (∀ (d : List (String × List Record)) (s : Summary)
      (a : List (String × AssetInfo)) (qs : List ℚ),
      build_forecast_assets d s = Except.ok a → s.mutual_funds > 0 →
      ratesOf "expected_return" ((assocGet? d "Mutual Funds").getD []) =
        Except.ok qs → qs ≠ [] →
      assocGet? a "Mutual Funds" =
        some ⟨some s.mutual_funds, some (qs.sum / qs.length)⟩) ∧
    (∀ (d : List (String × List Record)) (s : Summary)
      (a : List (String × AssetInfo)),
      build_forecast_assets d s = Except.ok a → s.stocks > 0 →
      ratesOf "expected_return" ((assocGet? d "Stocks").getD []) =
        Except.ok [] →
      assocGet? a "Stocks" = some ⟨some s.stocks, some 12⟩) ∧
    (∀ (d : List (String × List Record)) (s : Summary)
      (a : List (String × AssetInfo)) (qs : List ℚ),
      build_forecast_assets d s = Except.ok a → s.stocks > 0 →
      ratesOf "expected_return" ((assocGet? d "Stocks").getD []) =
        Except.ok qs → qs ≠ [] →
      assocGet? a "Stocks" =
        some ⟨some s.stocks, some (qs.sum / qs.length)⟩) ∧
    (∀ (d : List (String × List Record)) (s : Summary)
      (a : List (String × AssetInfo)),
      build_forecast_assets d s = Except.ok a → s.real_estate > 0 →
      ratesOf "appreciation_rate" ((assocGet? d "Real Estate").getD []) =
        Except.ok [] →
      assocGet? a "Real Estate" = some ⟨some s.real_estate, some 8⟩) ∧
    (∀ (d : List (String × List Record)) (s : Summary)
      (a : List (String × AssetInfo)) (qs : List ℚ),
      build_forecast_assets d s = Except.ok a → s.real_estate > 0 →
      ratesOf "appreciation_rate" ((assocGet? d "Real Estate").getD []) =
        Except.ok qs → qs ≠ [] →
      assocGet? a "Real Estate" =
        some ⟨some s.real_estate, some (qs.sum / qs.length)⟩) ∧
    (∀ (d : List (String × List Record)) (s : Summary)
      (a : List (String × AssetInfo)),
      build_forecast_assets d s = Except.ok a → s.gold > 0 →
      ratesOf "expected_return" ((assocGet? d "Gold").getD []) =
        Except.ok [] →
      assocGet? a "Gold" = some ⟨some s.gold, some 8⟩) ∧
    (∀ (d : List (String × List Record)) (s : Summary)
      (a : List (String × AssetInfo)) (qs : List ℚ),
      build_forecast_assets d s = Except.ok a → s.gold > 0 →
      ratesOf "expected_return" ((assocGet? d "Gold").getD []) =
        Except.ok qs → qs ≠ [] →
      assocGet? a "Gold" =
        some ⟨some s.gold, some (qs.sum / qs.length)⟩) ∧
    (∀ (d : List (String × List Record)) (s : Summary)
      (a : List (String × AssetInfo)),
      build_forecast_assets d s = Except.ok a → s.silver > 0 →
      ratesOf "expected_return" ((assocGet? d "Silver").getD []) =
        Except.ok [] →
      assocGet? a "Silver" = some ⟨some s.silver, some 7⟩) ∧
    (∀ (d : List (String × List Record)) (s : Summary)
      (a : List (String × AssetInfo)) (qs : List ℚ),
      build_forecast_assets d s = Except.ok a → s.silver > 0 →
      ratesOf "expected_return" ((assocGet? d "Silver").getD []) =
        Except.ok qs → qs ≠ [] →
      assocGet? a "Silver" =
        some ⟨some s.silver, some (qs.sum / qs.length)⟩) ∧
    (∀ (d : List (String × List Record)) (s : Summary)
      (a : List (String × AssetInfo)),
      build_forecast_assets d s = Except.ok a → s.nps > 0 →
      ratesOf "expected_return" ((assocGet? d "NPS Accounts").getD []) =
        Except.ok [] →
      assocGet? a "NPS" = some ⟨some s.nps, some 10⟩) ∧
    (∀ (d : List (String × List Record)) (s : Summary)
      (a : List (String × AssetInfo)) (qs : List ℚ),
      build_forecast_assets d s = Except.ok a → s.nps > 0 →
      ratesOf "expected_return" ((assocGet? d "NPS Accounts").getD []) =
        Except.ok qs → qs ≠ [] →
      assocGet? a "NPS" =
        some ⟨some s.nps, some (qs.sum / qs.length)⟩) ∧
    (∀ (d : List (String × List Record)) (s : Summary)
      (a : List (String × AssetInfo)),
      build_forecast_assets d s = Except.ok a → s.bank_balance > 0 →
      assocGet? a "Bank Balance" = some ⟨some s.bank_balance, some (7/2)⟩) ∧
    (∀ (d : List (String × List Record)) (s : Summary)
      (a : List (String × AssetInfo)),
      build_forecast_assets d s = Except.ok a → s.ppf > 0 →
      assocGet? a "PPF" = some ⟨some s.ppf, some (71/10)⟩) ∧
    (∀ (d : List (String × List Record)) (s : Summary)
      (a : List (String × AssetInfo)),
      build_forecast_assets d s = Except.ok a → s.epf > 0 →
      assocGet? a "EPF" = some ⟨some s.epf, some (33/4)⟩) ∧
    (∀ (d : List (String × List Record)) (s : Summary)
      (a : List (String × AssetInfo)),
      build_forecast_assets d s = Except.ok a →
      assocGet? a "Fixed Deposits" = none) := by
  refine ⟨?_, ?_, ?_, ?_, ?_, ?_, ?_, ?_, ?_, ?_, ?_, ?_, ?_, ?_, ?_, ?_⟩
  · intro d s a h hc hr
    obtain ⟨a1, a2, a3, a4, a5, a6, a7, a8, h1, h2, h3, h4, h5, h6, h7, h8,
      h9x⟩ := build_layers h
    have p9 := addLine_preserve "Mutual Funds" (by decide) h9x rfl
    have p8 := addLine_preserve "Mutual Funds" (by decide) h8 rfl
    have p7 := addLine_preserve "Mutual Funds" (by decide) h7 rfl
    have p6 := addLine_preserve "Mutual Funds" (by decide) h6 rfl
    have p5 := addLine_preserve "Mutual Funds" (by decide) h5 rfl
    have p4 := addLine_preserve "Mutual Funds" (by decide) h4 rfl
    have p3 := addLine_preserve "Mutual Funds" (by decide) h3 rfl
    have p2 := addLine_preserve "Mutual Funds" (by decide) h2 rfl
    rw [p9, p8, p7, p6, p5, p4, p3, p2]
    obtain ⟨q, hq, hset⟩ := addLine_ok2 h1 hc
    rw [avgReturn_of_no_rates _ _ _ hr] at hq
    injection hq with hq2
    rw [hset, assocGet?_set_self, ← hq2]
    simp [dfltReturn, DEFAULT_RETURNS, assocGet?]
  · intro d s a qs h hc hr hne
    obtain ⟨a1, a2, a3, a4, a5, a6, a7, a8, h1, h2, h3, h4, h5, h6, h7, h8,
      h9x⟩ := build_layers h
    have p9 := addLine_preserve "Mutual Funds" (by decide) h9x rfl
    have p8 := addLine_preserve "Mutual Funds" (by decide) h8 rfl
    have p7 := addLine_preserve "Mutual Funds" (by decide) h7 rfl
    have p6 := addLine_preserve "Mutual Funds" (by decide) h6 rfl
    have p5 := addLine_preserve "Mutual Funds" (by decide) h5 rfl
    have p4 := addLine_preserve "Mutual Funds" (by decide) h4 rfl
    have p3 := addLine_preserve "Mutual Funds" (by decide) h3 rfl
    have p2 := addLine_preserve "Mutual Funds" (by decide) h2 rfl
    rw [p9, p8, p7, p6, p5, p4, p3, p2]
    obtain ⟨q, hq, hset⟩ := addLine_ok2 h1 hc
    rw [avgReturn_of_rates _ _ _ _ hr hne] at hq
    injection hq with hq2
    rw [hset, assocGet?_set_self, ← hq2]
  · intro d s a h hc hr
    obtain ⟨a1, a2, a3, a4, a5, a6, a7, a8, h1, h2, h3, h4, h5, h6, h7, h8,
      h9x⟩ := build_layers h
    have p9 := addLine_preserve "Stocks" (by decide) h9x rfl
    have p8 := addLine_preserve "Stocks" (by decide) h8 rfl
    have p7 := addLine_preserve "Stocks" (by decide) h7 rfl
    have p6 := addLine_preserve "Stocks" (by decide) h6 rfl
    have p5 := addLine_preserve "Stocks" (by decide) h5 rfl
    have p4 := addLine_preserve "Stocks" (by decide) h4 rfl
    have p3 := addLine_preserve "Stocks" (by decide) h3 rfl
    rw [p9, p8, p7, p6, p5, p4, p3]
    obtain ⟨q, hq, hset⟩ := addLine_ok2 h2 hc
    rw [avgReturn_of_no_rates _ _ _ hr] at hq
    injection hq with hq2
    rw [hset, assocGet?_set_self, ← hq2]
    simp [dfltReturn, DEFAULT_RETURNS, assocGet?]
  · intro d s a qs h hc hr hne
    obtain ⟨a1, a2, a3, a4, a5, a6, a7, a8, h1, h2, h3, h4, h5, h6, h7, h8,
      h9x⟩ := build_layers h
    have p9 := addLine_preserve "Stocks" (by decide) h9x rfl
    have p8 := addLine_preserve "Stocks" (by decide) h8 rfl
    have p7 := addLine_preserve "Stocks" (by decide) h7 rfl
    have p6 := addLine_preserve "Stocks" (by decide) h6 rfl
    have p5 := addLine_preserve "Stocks" (by decide) h5 rfl
    have p4 := addLine_preserve "Stocks" (by decide) h4 rfl
    have p3 := addLine_preserve "Stocks" (by decide) h3 rfl
    rw [p9, p8, p7, p6, p5, p4, p3]
    obtain ⟨q, hq, hset⟩ := addLine_ok2 h2 hc
    rw [avgReturn_of_rates _ _ _ _ hr hne] at hq
    injection hq with hq2
    rw [hset, assocGet?_set_self, ← hq2]
  · intro d s a h hc hr
    obtain ⟨a1, a2, a3, a4, a5, a6, a7, a8, h1, h2, h3, h4, h5, h6, h7, h8,
      h9x⟩ := build_layers h
    have p9 := addLine_preserve "Real Estate" (by decide) h9x rfl
    have p8 := addLine_preserve "Real Estate" (by decide) h8 rfl
    have p7 := addLine_preserve "Real Estate" (by decide) h7 rfl
    have p6 := addLine_preserve "Real Estate" (by decide) h6 rfl
    have p5 := addLine_preserve "Real Estate" (by decide) h5 rfl
    have p4 := addLine_preserve "Real Estate" (by decide) h4 rfl
    rw [p9, p8, p7, p6, p5, p4]
    obtain ⟨q, hq, hset⟩ := addLine_ok2 h3 hc
    rw [avgReturn_of_no_rates _ _ _ hr] at hq
    injection hq with hq2
    rw [hset, assocGet?_set_self, ← hq2]
    simp [dfltReturn, DEFAULT_RETURNS, assocGet?]
  · intro d s a qs h hc hr hne
    obtain ⟨a1, a2, a3, a4, a5, a6, a7, a8, h1, h2, h3, h4, h5, h6, h7, h8,
      h9x⟩ := build_layers h
    have p9 := addLine_preserve "Real Estate" (by decide) h9x rfl
    have p8 := addLine_preserve "Real Estate" (by decide) h8 rfl
    have p7 := addLine_preserve "Real Estate" (by decide) h7 rfl
    have p6 := addLine_preserve "Real Estate" (by decide) h6 rfl
    have p5 := addLine_preserve "Real Estate" (by decide) h5 rfl
    have p4 := addLine_preserve "Real Estate" (by decide) h4 rfl
    rw [p9, p8, p7, p6, p5, p4]
    obtain ⟨q, hq, hset⟩ := addLine_ok2 h3 hc
    rw [avgReturn_of_rates _ _ _ _ hr hne] at hq
    injection hq with hq2
    rw [hset, assocGet?_set_self, ← hq2]
  · intro d s a h hc hr
    obtain ⟨a1, a2, a3, a4, a5, a6, a7, a8, h1, h2, h3, h4, h5, h6, h7, h8,
      h9x⟩ := build_layers h
    have p9 := addLine_preserve "Gold" (by decide) h9x rfl
    have p8 := addLine_preserve "Gold" (by decide) h8 rfl
    have p7 := addLine_preserve "Gold" (by decide) h7 rfl
    have p6 := addLine_preserve "Gold" (by decide) h6 rfl
    have p5 := addLine_preserve "Gold" (by decide) h5 rfl
    rw [p9, p8, p7, p6, p5]
    obtain ⟨q, hq, hset⟩ := addLine_ok2 h4 hc
    rw [avgReturn_of_no_rates _ _ _ hr] at hq
    injection hq with hq2
    rw [hset, assocGet?_set_self, ← hq2]
    simp [dfltReturn, DEFAULT_RETURNS, assocGet?]
  · intro d s a qs h hc hr hne
    obtain ⟨a1, a2, a3, a4, a5, a6, a7, a8, h1, h2, h3, h4, h5, h6, h7, h8,
      h9x⟩ := build_layers h
    have p9 := addLine_preserve "Gold" (by decide) h9x rfl
    have p8 := addLine_preserve "Gold" (by decide) h8 rfl
    have p7 := addLine_preserve "Gold" (by decide) h7 rfl
    have p6 := addLine_preserve "Gold" (by decide) h6 rfl
    have p5 := addLine_preserve "Gold" (by decide) h5 rfl
    rw [p9, p8, p7, p6, p5]
    obtain ⟨q, hq, hset⟩ := addLine_ok2 h4 hc
    rw [avgReturn_of_rates _ _ _ _ hr hne] at hq
    injection hq with hq2
    rw [hset, assocGet?_set_self, ← hq2]
  · intro d s a h hc hr
    obtain ⟨a1, a2, a3, a4, a5, a6, a7, a8, h1, h2, h3, h4, h5, h6, h7, h8,
      h9x⟩ := build_layers h
    have p9 := addLine_preserve "Silver" (by decide) h9x rfl
    have p8 := addLine_preserve "Silver" (by decide) h8 rfl
    have p7 := addLine_preserve "Silver" (by decide) h7 rfl
    have p6 := addLine_preserve "Silver" (by decide) h6 rfl
    rw [p9, p8, p7, p6]
    obtain ⟨q, hq, hset⟩ := addLine_ok2 h5 hc
    rw [avgReturn_of_no_rates _ _ _ hr] at hq
    injection hq with hq2
    rw [hset, assocGet?_set_self, ← hq2]
    simp [dfltReturn, DEFAULT_RETURNS, assocGet?]
  · intro d s a qs h hc hr hne
    obtain ⟨a1, a2, a3, a4, a5, a6, a7, a8, h1, h2, h3, h4, h5, h6, h7, h8,
      h9x⟩ := build_layers h
    have p9 := addLine_preserve "Silver" (by decide) h9x rfl
    have p8 := addLine_preserve "Silver" (by decide) h8 rfl
    have p7 := addLine_preserve "Silver" (by decide) h7 rfl
    have p6 := addLine_preserve "Silver" (by decide) h6 rfl
    rw [p9, p8, p7, p6]
    obtain ⟨q, hq, hset⟩ := addLine_ok2 h5 hc
    rw [avgReturn_of_rates _ _ _ _ hr hne] at hq
    injection hq with hq2
    rw [hset, assocGet?_set_self, ← hq2]
  · intro d s a h hc hr
    obtain ⟨a1, a2, a3, a4, a5, a6, a7, a8, h1, h2, h3, h4, h5, h6, h7, h8,
      h9x⟩ := build_layers h
    have p9 := addLine_preserve "NPS" (by decide) h9x rfl
    have p8 := addLine_preserve "NPS" (by decide) h8 rfl
    rw [p9, p8]
    obtain ⟨q, hq, hset⟩ := addLine_ok2 h7 hc
    rw [avgReturn_of_no_rates _ _ _ hr] at hq
    injection hq with hq2
    rw [hset, assocGet?_set_self, ← hq2]
    simp [dfltReturn, DEFAULT_RETURNS, assocGet?]
  · intro d s a qs h hc hr hne
    obtain ⟨a1, a2, a3, a4, a5, a6, a7, a8, h1, h2, h3, h4, h5, h6, h7, h8,
      h9x⟩ := build_layers h
    have p9 := addLine_preserve "NPS" (by decide) h9x rfl
    have p8 := addLine_preserve "NPS" (by decide) h8 rfl
    rw [p9, p8]
    obtain ⟨q, hq, hset⟩ := addLine_ok2 h7 hc
    rw [avgReturn_of_rates _ _ _ _ hr hne] at hq
    injection hq with hq2
    rw [hset, assocGet?_set_self, ← hq2]
  · intro d s a h hc
    obtain ⟨a1, a2, a3, a4, a5, a6, a7, a8, h1, h2, h3, h4, h5, h6, h7, h8,
      h9x⟩ := build_layers h
    have p9 := addLine_preserve "Bank Balance" (by decide) h9x rfl
    have p8 := addLine_preserve "Bank Balance" (by decide) h8 rfl
    have p7 := addLine_preserve "Bank Balance" (by decide) h7 rfl
    rw [p9, p8, p7]
    obtain ⟨q, hq, hset⟩ := addLine_ok2 h6 hc
    injection hq with hq2
    rw [hset, assocGet?_set_self, ← hq2]
    simp [dfltReturn, DEFAULT_RETURNS, assocGet?]
  · intro d s a h hc
    obtain ⟨a1, a2, a3, a4, a5, a6, a7, a8, h1, h2, h3, h4, h5, h6, h7, h8,
      h9x⟩ := build_layers h
    have p9 := addLine_preserve "PPF" (by decide) h9x rfl
    rw [p9]
    obtain ⟨q, hq, hset⟩ := addLine_ok2 h8 hc
    injection hq with hq2
    rw [hset, assocGet?_set_self, ← hq2]
    simp [dfltReturn, DEFAULT_RETURNS, assocGet?]
  · intro d s a h hc
    obtain ⟨a1, a2, a3, a4, a5, a6, a7, a8, h1, h2, h3, h4, h5, h6, h7, h8,
      h9x⟩ := build_layers h
    obtain ⟨q, hq, hset⟩ := addLine_ok2 h9x hc
    injection hq with hq2
    rw [hset, assocGet?_set_self, ← hq2]
    simp [dfltReturn, DEFAULT_RETURNS, assocGet?]
  · intro d s a h
    obtain ⟨a1, a2, a3, a4, a5, a6, a7, a8, h1, h2, h3, h4, h5, h6, h7, h8,
      h9x⟩ := build_layers h
    have p9 := addLine_preserve "Fixed Deposits" (by decide) h9x rfl
    have p8 := addLine_preserve "Fixed Deposits" (by decide) h8 rfl
    have p7 := addLine_preserve "Fixed Deposits" (by decide) h7 rfl
    have p6 := addLine_preserve "Fixed Deposits" (by decide) h6 rfl
    have p5 := addLine_preserve "Fixed Deposits" (by decide) h5 rfl
    have p4 := addLine_preserve "Fixed Deposits" (by decide) h4 rfl
    have p3 := addLine_preserve "Fixed Deposits" (by decide) h3 rfl
    have p2 := addLine_preserve "Fixed Deposits" (by decide) h2 rfl
    have p1 := addLine_preserve "Fixed Deposits" (by decide) h1 rfl
    rw [p9, p8, p7, p6, p5, p4, p3, p2, p1]
    rfl

/-- Witness for C7: with no data and only PPF positive, the built PPF
line carries the 7.1 default. -/
theorem build_forecast_assets_spec_witness :
    assocGet? [("PPF", (⟨some 1, some (71/10)⟩ : AssetInfo))] "PPF" =
      some ⟨some 1, some (71/10)⟩ :=
  build_forecast_assets_spec.2.2.2.2.2.2.2.2.2.2.2.2.2.1 [] { ppf := 1 }
    [("PPF", ⟨some 1, some (71/10)⟩)]
    (by
      norm_num [build_forecast_assets, addLine, avgReturn, dfltReturn,
        DEFAULT_RETURNS, assocGet?, assocSet]
      simp)
    (by norm_num)

/-! ### Storage selector (`storage.py` 277-309, `routes.py` 489-515) -/

/-- The `firebase_config` dict: credential path or inline JSON blob
(presence only; contents are external) and user id. -/
structure FirebaseConfig where
  service_account_path : Option String := none
  service_account_json : Option String := none
  user_id : Option String := none
deriving DecidableEq, Repr

/-- The persisted configuration (`config.json`). -/
structure Config where
  storage_mode : String
  firebase_config : FirebaseConfig
deriving DecidableEq, Repr

/-- The kind of backend instance held by `_storage_instance`. -/
inductive Backend where
  | inMemory : Backend
  | firebase : FirebaseConfig → Backend
deriving DecidableEq, Repr

/-- Process state of the selector: persisted config plus the cached
`_storage_instance`. -/
structure SelectorState where
  config : Config
  inst : Option Backend
deriving DecidableEq, Repr

/-- Whether `FirebaseStorage.__init__` succeeds: it raises unless a
credential path or JSON blob is configured, and even then the external
world (package import, credential validation, connectivity) must accept —
modelled by the oracle `env`. -/
def fbInitOk (env : FirebaseConfig → Bool) (cfg : FirebaseConfig) : Bool :=
  (cfg.service_account_path.isSome || cfg.service_account_json.isSome) &&
    env cfg

/-- `get_storage` (`storage.py` 277-294): lazily build the singleton; a
failing Firebase construction is caught, logged, and silently replaced by
the in-memory backend (the persisted config is not touched). -/
def get_storage (env : FirebaseConfig → Bool) (st : SelectorState) :
    SelectorState × Backend :=
  match st.inst with
  | some b => (st, b)
  | none =>
    if st.config.storage_mode = "firebase" then
      if fbInitOk env st.config.firebase_config then
        ({ st with
            inst := some (Backend.firebase st.config.firebase_config) },
          Backend.firebase st.config.firebase_config)
      else ({ st with inst := some Backend.inMemory }, Backend.inMemory)
    else ({ st with inst := some Backend.inMemory }, Backend.inMemory)

/-- `set_storage_mode` (`storage.py` 296-309): persist the new mode (and
config, when one is passed), drop the cached instance, and eagerly
rebuild via `get_storage`.  Total: it never raises. -/
def set_storage_mode (env : FirebaseConfig → Bool) (st : SelectorState)
    (mode : String) (firebase_config : Option FirebaseConfig) :
    SelectorState × Backend :=
  get_storage env
    { config :=
        { storage_mode := mode,
          firebase_config :=
            match firebase_config with
            | some c => c
            | none => st.config.firebase_config },
      inst := none }

/-- A flashed message (text, category). -/
structure Flash where
  message : String
  category : String
deriving DecidableEq, Repr

/-- `update_storage_settings` (`routes.py` 489-515).  The route wraps
`set_storage_mode('firebase', …)` in `try/except` and would flash an
error and revert to browser mode on an exception — but `set_storage_mode`
cannot raise on a bad Firebase config (the failure is swallowed inside
`get_storage`), so the success flash is always reached. -/
def update_storage_settings (env : FirebaseConfig → Bool)
    (st : SelectorState) (storage_mode : String)
    (firebase_config : FirebaseConfig) : SelectorState × Flash :=
  if storage_mode = "firebase" then
    ((set_storage_mode env st "firebase" (some firebase_config)).1,
      ⟨"Storage mode switched to Firebase Firestore!", "success"⟩)
  else
    ((set_storage_mode env st "browser" none).1,
      ⟨"Storage mode switched to Browser (localStorage)!", "success"⟩)

/-- **C1 (counterexample).** Switching to an unreachable/invalid Firebase
configuration does *not* return a failure indication and does *not*
revert the persisted mode: the route flashes success and the persisted
`storage_mode` stays `"firebase"`; only the active instance falls back to
the in-memory backend. -/
theorem bad_firebase_switch_reports_success :
    (update_storage_settings (fun _ => false)
      ⟨⟨"browser", {}⟩, none⟩ "firebase" {}).1.config.storage_mode =
      "firebase" ∧
    (update_storage_settings (fun _ => false)
      ⟨⟨"browser", {}⟩, none⟩ "firebase" {}).2.category = "success" ∧
    (update_storage_settings (fun _ => false)
      ⟨⟨"browser", {}⟩, none⟩ "firebase" {}).1.inst =
      some Backend.inMemory := by
  refine ⟨rfl, rfl, ?_⟩
  decide

/-- **C1 (amended).** For every environment and every Firebase
configuration whose initialisation fails, the storage-mode switch does
not crash and leaves the *active backend instance* as the in-memory
backend; but the persisted `storage_mode` remains `"firebase"` and the
route reports success, not failure. -/
theorem switch_storage_mode_fail_open (env : FirebaseConfig → Bool)
    (st : SelectorState) (cfg : FirebaseConfig)
    (h : fbInitOk env cfg = false) :
    (update_storage_settings env st "firebase" cfg).1.inst =
      some Backend.inMemory ∧
    (update_storage_settings env st "firebase" cfg).1.config.storage_mode =
      "firebase" ∧
    (update_storage_settings env st "firebase" cfg).2.category =
      "success" := by
  unfold update_storage_settings set_storage_mode get_storage
  simp [h]

/-- Witness for C1: the empty Firebase configuration (no credentials)
always fails initialisation, and the switch falls back to in-memory. -/
theorem switch_storage_mode_fail_open_witness :
    (update_storage_settings (fun _ => false)
      ⟨⟨"browser", {}⟩, none⟩ "firebase"
      ⟨none, none, some "user_1"⟩).1.inst = some Backend.inMemory :=
  (switch_storage_mode_fail_open (fun _ => false)
    ⟨⟨"browser", {}⟩, none⟩ ⟨none, none, some "user_1"⟩ (by decide)).1

/-! ### Net-worth snapshot (`routes.py` 389-419 and 571-596,
`models.py` 154-168) -/

/-- The snapshot dict built by `save_networth_snapshot` /
`api_create_snapshot`: today's date plus the rounded values of exactly
the fields of the `NetWorthHistory` model — nine asset categories and the
three totals.  `fixed_deposits`, `insurance_cover` and the individual
liability categories are not part of it. -/
def buildSnapshot (today : String) (s : Summary) : Record :=
  [("record_date", Value.str today),
   ("mutual_funds", Value.num (pyRound2 s.mutual_funds)),
   ("stocks", Value.num (pyRound2 s.stocks)),
   ("real_estate", Value.num (pyRound2 s.real_estate)),
   ("gold", Value.num (pyRound2 s.gold)),
   ("silver", Value.num (pyRound2 s.silver)),
   ("bank_balance", Value.num (pyRound2 s.bank_balance)),
   ("nps", Value.num (pyRound2 s.nps)),
   ("ppf", Value.num (pyRound2 s.ppf)),
   ("epf", Value.num (pyRound2 s.epf)),
   ("total_assets", Value.num (pyRound2 s.total_assets)),
   ("total_liabilities", Value.num (pyRound2 s.total_liabilities)),
   ("net_worth", Value.num (pyRound2 s.net_worth))]

/-- `save_networth_snapshot` (`routes.py` 389-419): summarise the current
collections, then append the snapshot row to the `Net Worth History`
frame (`pd.concat` of the old frame and the one-row frame). -/
def save_networth_snapshot (today : String)
    (all_data : List (String × List Record)) (history : DataFrame) :
    DataFrame :=
  history ++
    [buildSnapshot today (calculate_portfolio_summary_from_data all_data)]

/-- **C3 (counterexample).** The summary has a `fixed_deposits` category
(here 500, from one fixed deposit of principal 500), but the appended
snapshot row carries no `fixed_deposits` (nor `insurance_cover`) field,
so the row does not contain every category total of the summary. -/
theorem snapshot_misses_fixed_deposits :
    (calculate_portfolio_summary_from_data
      [("Fixed Deposits", [[("principal_amount", Value.num 500)]])]
      ).fixed_deposits = 500 ∧
    assocGet?
      ((save_networth_snapshot "2026-10-12"
        [("Fixed Deposits", [[("principal_amount", Value.num 500)]])]
        []).headD [])
      "fixed_deposits" = none ∧
    assocGet?
      ((save_networth_snapshot "2026-10-12"
        [("Fixed Deposits", [[("principal_amount", Value.num 500)]])]
        []).headD [])
      "insurance_cover" = none := by
  refine ⟨?_, by decide, by decide⟩
  simp [calculate_portfolio_summary_from_data, applySheet, zeroSummary,
    rowDelta1, getF, pyOr0, pyFalsy, pyFloat?, assocGet?]

/-- **C3 (amended).** Snapshot creation computes the summary from the
current collections and appends exactly one row to the history, with all
previously existing rows preserved; that row carries today's date, the
rounded mutual-funds, stocks, real-estate, gold, silver, bank-balance,
NPS, PPF and EPF category values, and the rounded three totals — exactly
the `NetWorthHistory` model fields; the `fixed_deposits`,
`insurance_cover` and individual liability categories of the summary are
not carried. -/
theorem snapshot_spec (today : String)
    (all_data : List (String × List Record)) (history : DataFrame) :
    save_networth_snapshot today all_data history = history ++
      [buildSnapshot today
        (calculate_portfolio_summary_from_data all_data)] ∧
    (save_networth_snapshot today all_data history).length =
      history.length + 1 ∧
    (∀ r ∈ history, r ∈ save_networth_snapshot today all_data history) ∧
    assocGet? (buildSnapshot today
      (calculate_portfolio_summary_from_data all_data)) "record_date" =
      some (Value.str today) ∧
    (∀ k ∈ ["mutual_funds", "stocks", "real_estate", "gold", "silver",
      "bank_balance", "nps", "ppf", "epf", "total_assets",
      "total_liabilities", "net_worth"],
      ∃ q : ℚ, assocGet? (buildSnapshot today
        (calculate_portfolio_summary_from_data all_data)) k =
        some (Value.num (pyRound2 q))) ∧
    assocGet? (buildSnapshot today
      (calculate_portfolio_summary_from_data all_data)) "mutual_funds" =
      some (Value.num (pyRound2
        (calculate_portfolio_summary_from_data all_data).mutual_funds)) ∧
    assocGet? (buildSnapshot today
      (calculate_portfolio_summary_from_data all_data)) "net_worth" =
      some (Value.num (pyRound2
        (calculate_portfolio_summary_from_data all_data).net_worth)) ∧
    assocGet? (buildSnapshot today
      (calculate_portfolio_summary_from_data all_data))
      "fixed_deposits" = none ∧
    assocGet? (buildSnapshot today
      (calculate_portfolio_summary_from_data all_data))
      "insurance_cover" = none := by
  refine ⟨rfl, by simp [save_networth_snapshot], ?_, by simp [buildSnapshot, assocGet?], ?_, by simp [buildSnapshot, assocGet?], by simp [buildSnapshot, assocGet?], by simp [buildSnapshot, assocGet?], by simp [buildSnapshot, assocGet?]⟩
  · intro r hr
    unfold save_networth_snapshot
    exact List.mem_append_left _ hr
  · intro k hk
    set s := calculate_portfolio_summary_from_data all_data
    fin_cases hk
    · exact ⟨s.mutual_funds, by simp [buildSnapshot, assocGet?]⟩
    · exact ⟨s.stocks, by simp [buildSnapshot, assocGet?]⟩
    · exact ⟨s.real_estate, by simp [buildSnapshot, assocGet?]⟩
    · exact ⟨s.gold, by simp [buildSnapshot, assocGet?]⟩
    · exact ⟨s.silver, by simp [buildSnapshot, assocGet?]⟩
    · exact ⟨s.bank_balance, by simp [buildSnapshot, assocGet?]⟩
    · exact ⟨s.nps, by simp [buildSnapshot, assocGet?]⟩
    · exact ⟨s.ppf, by simp [buildSnapshot, assocGet?]⟩
    · exact ⟨s.epf, by simp [buildSnapshot, assocGet?]⟩
    · exact ⟨s.total_assets, by simp [buildSnapshot, assocGet?]⟩
    · exact ⟨s.total_liabilities, by simp [buildSnapshot, assocGet?]⟩
    · exact ⟨s.net_worth, by simp [buildSnapshot, assocGet?]⟩
